import Mathlib

/-!
Shallow embedding of `src/controllers/batchHistoryController.js` from the
`smk-api` repository: the batch-switch transaction engine (`switchBatch`)
and the switch-edit/reversal engine (`editBatchSwitch`).

Prisma rows become Lean structures; the database becomes a record of lists;
each controller becomes a pure function `DB → args → Resp × DB` where the
returned `DB` is the committed state (unchanged on any rejection that
happens before or aborts the transaction).  Fresh ids (autoincrement ids,
the minted `transferId` UUID, and `createdAt` timestamps) are drawn from
counters `nextId` / `clock` carried in `DB`: on every invocation
`transferId = nextId`, the first created row gets id `nextId + 1`, the
second `nextId + 2`, and the committed state has `nextId + 3` and
`clock + 1`.
-/

namespace SmkApi

/-- Fee.status values used by the controller. -/
inductive FeeStatus
  | PENDING
  | ACTIVE
  | PAID
  | INACTIVE
  | CANCELLED
deriving DecidableEq, Repr

/-- Payment.status: the controller only distinguishes CANCELLED and
INACTIVE from everything else; `COMPLETED` stands for any other status. -/
inductive PaymentStatus
  | COMPLETED
  | CANCELLED
  | INACTIVE
deriving DecidableEq, Repr

structure Student where
  id : Nat
  currentBatchId : Nat
deriving DecidableEq, Repr

/-- A Batch together with its included course's `baseFee`
(`include: { course: true }`). -/
structure Batch where
  id : Nat
  slotLimit : Int
  currentCount : Int
  courseBaseFee : Int
deriving DecidableEq, Repr

structure Fee where
  id : Nat
  studentId : Nat
  batchId : Nat
  totalCourseFee : Int
  finalFee : Int
  balanceAmount : Int
  advanceAmount : Option Int
  status : FeeStatus
  transferId : Option Nat
deriving DecidableEq, Repr

structure Payment where
  id : Nat
  studentId : Nat
  feeId : Nat
  amount : Int
  status : PaymentStatus
deriving DecidableEq, Repr

structure BatchHistory where
  id : Nat
  studentId : Nat
  fromBatchId : Nat
  toBatchId : Nat
  changeDate : Nat
  reason : String
  transferId : Nat
  feeIdFrom : Nat
  feeIdTo : Nat
  feeManageMode : String
  createdAt : Nat
deriving DecidableEq, Repr

/-- The persistent store plus the id/timestamp allocators. -/
structure DB where
  students : List Student
  batches : List Batch
  fees : List Fee
  payments : List Payment
  histories : List BatchHistory
  nextId : Nat
  clock : Nat
deriving DecidableEq, Repr

/-- The value stored under the `batchHistory` key of a success payload.
In the TRANSFER branch of `switchBatch` the destructuring
`const [updatedFee, batchHistory] = await prisma.$transaction([...])`
binds `batchHistory` to the result of `prisma.student.update`, so the
payload field can hold either row kind. -/
inductive BHField
  | history (h : BatchHistory)
  | student (s : Student)
deriving DecidableEq, Repr

structure Payload where
  batchHistory : Option BHField
  oldFee : Option Fee
  newFee : Option Fee
  transferId : Option Nat
deriving DecidableEq, Repr

/-- `sendResponse(res, status, success, message, data)`. -/
structure Resp where
  status : Nat
  success : Bool
  message : String
  payload : Option Payload
deriving DecidableEq, Repr

def mkErr (status : Nat) (message : String) : Resp :=
  { status := status, success := false, message := message, payload := none }

/-- `prisma.student.findUnique({ where: { id } })`. -/
def findStudent (db : DB) (sid : Nat) : Option Student :=
  db.students.find? (fun s => s.id == sid)

/-- `prisma.batch.findUnique({ where: { id } })`. -/
def findBatch (db : DB) (bid : Nat) : Option Batch :=
  db.batches.find? (fun b => b.id == bid)

/-- The payments included on a fee (`include: { payments: true }`). -/
def feePayments (ps : List Payment) (feeId : Nat) : List Payment :=
  ps.filter (fun p => p.feeId == feeId)

/-- `payments.reduce((sum, p) => sum + p.amount, 0)` — note: no status
filter, every payment of the fee is summed. -/
def sumAmounts (ps : List Payment) : Int :=
  ps.foldl (fun s p => s + p.amount) 0

/-- `status: { in: ["CANCELLED", "INACTIVE"] }` on payments. -/
def isVoided (p : Payment) : Bool :=
  p.status == PaymentStatus.CANCELLED || p.status == PaymentStatus.INACTIVE

/-- `prisma.batch.update({ where: { id: bid }, data: { currentCount:
{ increment / decrement } } })`. -/
def adjustBatchCount (bs : List Batch) (bid : Nat) (d : Int) : List Batch :=
  bs.map (fun b => if b.id == bid then { b with currentCount := b.currentCount + d } else b)

/-- `prisma.student.update({ where: { id: sid }, data: { currentBatchId } })`. -/
def setStudentBatch (ss : List Student) (sid bid : Nat) : List Student :=
  ss.map (fun s => if s.id == sid then { s with currentBatchId := bid } else s)

/-- `prisma.fee.update({ where: { id: fid }, data: ... })`. -/
def updateFee (fs : List Fee) (fid : Nat) (f : Fee → Fee) : List Fee :=
  fs.map (fun x => if x.id == fid then f x else x)

/-- `prisma.payment.updateMany({ where: cond, data: { feeId: newFeeId } })`. -/
def reassignPayments (ps : List Payment) (cond : Payment → Bool) (newFeeId : Nat) :
    List Payment :=
  ps.map (fun p => if cond p then { p with feeId := newFeeId } else p)

/-- `prisma.fee.findFirst({ where: { studentId, status: "PENDING" } })`. -/
def findPendingFee (fs : List Fee) (sid : Nat) : Option Fee :=
  fs.find? (fun f => f.studentId == sid && f.status == FeeStatus.PENDING)

/-- `prisma.fee.findFirst({ where: { studentId, status: { in: ["ACTIVE",
"PENDING"] } } })` in the edit engine. -/
def findOpenFee (fs : List Fee) (sid : Nat) : Option Fee :=
  fs.find? (fun f =>
    f.studentId == sid && (f.status == FeeStatus.ACTIVE || f.status == FeeStatus.PENDING))

/-- One step of scanning for the history row of maximal `createdAt`
(keeping the earlier row on ties, as a stable descending sort does). -/
def pickLatest (acc : Option BatchHistory) (h : BatchHistory) : Option BatchHistory :=
  match acc with
  | none => some h
  | some b => if b.createdAt < h.createdAt then some h else some b

/-- The latest history row of a student within a given history table. -/
def latestOf (hs : List BatchHistory) (sid : Nat) : Option BatchHistory :=
  (hs.filter (fun h => h.studentId == sid)).foldl pickLatest none

/-- `prisma.batchHistory.findFirst({ where: { studentId }, orderBy:
{ createdAt: "desc" } })`: the first row among those of maximal
`createdAt`. -/
def latestHistoryFor (db : DB) (sid : Nat) : Option BatchHistory :=
  latestOf db.histories sid

/-- `switchBatch` (lines 8–337).  Arguments mirror `req.body`; the actor
fields of `req.user` only feed the post-commit communication log, which is
outside the store and not modelled. -/
def switchBatch (db : DB) (studentId fromBatchId toBatchId changeDate : Nat)
    (reason feeAction : String) : Resp × DB :=
  match findStudent db studentId with
  | none => (mkErr 404 "Student not found", db)
  | some student =>
    if student.currentBatchId != fromBatchId then
      (mkErr 400 "Current batch mismatch", db)
    else
      match findBatch db toBatchId with
      | none => (mkErr 404 "Target batch not found", db)
      | some toBatch =>
        if toBatch.slotLimit ≤ toBatch.currentCount then
          (mkErr 400 "Target batch is full", db)
        else
          match findPendingFee db.fees studentId with
          | none => (mkErr 404 "Old fee record not found", db)
          | some oldFee =>
            let totalPaidOld := sumAmounts (feePayments db.payments oldFee.id)
            let transferId := db.nextId
            if feeAction == "TRANSFER" then
              let newHistory : BatchHistory :=
                { id := db.nextId + 1, studentId := studentId,
                  fromBatchId := fromBatchId, toBatchId := toBatchId,
                  changeDate := changeDate, reason := reason,
                  transferId := transferId, feeIdFrom := oldFee.id,
                  feeIdTo := oldFee.id, feeManageMode := "TRANSFER",
                  createdAt := db.clock }
              let updatedStudent : Student := { student with currentBatchId := toBatchId }
              let db' : DB :=
                { db with
                  histories := db.histories ++ [newHistory],
                  students := setStudentBatch db.students studentId toBatchId,
                  batches := adjustBatchCount
                    (adjustBatchCount db.batches fromBatchId (-1)) toBatchId 1,
                  nextId := db.nextId + 3, clock := db.clock + 1 }
              ({ status := 200, success := true,
                 message := "Batch switched successfully",
                 payload := some
                   { batchHistory := some (BHField.student updatedStudent),
                     oldFee := none, newFee := none,
                     transferId := some transferId } }, db')
            else if feeAction == "NEW_FEE" then
              let newFeeAmount := max (toBatch.courseBaseFee - totalPaidOld) 0
              let newFee : Fee :=
                { id := db.nextId + 1, studentId := studentId,
                  batchId := toBatchId, totalCourseFee := toBatch.courseBaseFee,
                  finalFee := toBatch.courseBaseFee,
                  balanceAmount := newFeeAmount,
                  advanceAmount := oldFee.advanceAmount,
                  status := FeeStatus.PENDING, transferId := none }
              let newHistory : BatchHistory :=
                { id := db.nextId + 2, studentId := studentId,
                  fromBatchId := fromBatchId, toBatchId := toBatchId,
                  changeDate := changeDate, reason := reason,
                  transferId := transferId, feeIdFrom := oldFee.id,
                  feeIdTo := newFee.id, feeManageMode := "NEW_FEE",
                  createdAt := db.clock }
              let updatedOldFee : Fee := { oldFee with status := FeeStatus.CANCELLED }
              let db' : DB :=
                { db with
                  fees := updateFee (db.fees ++ [newFee]) oldFee.id
                    (fun f => { f with status := FeeStatus.CANCELLED }),
                  payments := reassignPayments db.payments
                    (fun p => p.studentId == studentId && p.feeId == oldFee.id
                      && !(isVoided p)) newFee.id,
                  histories := db.histories ++ [newHistory],
                  students := setStudentBatch db.students studentId toBatchId,
                  batches := adjustBatchCount
                    (adjustBatchCount db.batches fromBatchId (-1)) toBatchId 1,
                  nextId := db.nextId + 3, clock := db.clock + 1 }
              ({ status := 200, success := true,
                 message := "Batch switched successfully",
                 payload := some
                   { batchHistory := some (BHField.history newHistory),
                     oldFee := some updatedOldFee, newFee := some newFee,
                     transferId := some transferId } }, db')
            else if feeAction == "SPLIT" then
              if totalPaidOld > toBatch.courseBaseFee then
                (mkErr 400
                  "Student has paid more than the new batch fee. Please create a new admission.",
                  db)
              else
                let adjustedFee := max (toBatch.courseBaseFee - totalPaidOld) 0
                let newFee : Fee :=
                  { id := db.nextId + 1, studentId := studentId,
                    batchId := toBatchId, totalCourseFee := toBatch.courseBaseFee,
                    finalFee := adjustedFee, balanceAmount := adjustedFee,
                    advanceAmount := none, status := FeeStatus.PENDING,
                    transferId := some transferId }
                let isPaid := oldFee.balanceAmount == 0 || oldFee.finalFee ≤ totalPaidOld
                let updatedOldFee : Fee :=
                  { oldFee with
                    status := if isPaid then FeeStatus.PAID else FeeStatus.INACTIVE,
                    transferId := some transferId }
                let newHistory : BatchHistory :=
                  { id := db.nextId + 2, studentId := studentId,
                    fromBatchId := fromBatchId, toBatchId := toBatchId,
                    changeDate := changeDate, reason := reason,
                    transferId := transferId, feeIdFrom := oldFee.id,
                    feeIdTo := newFee.id, feeManageMode := "SPLIT",
                    createdAt := db.clock }
                let db' : DB :=
                  { db with
                    fees := updateFee (db.fees ++ [newFee]) oldFee.id
                      (fun f =>
                        { f with
                          status := if isPaid then FeeStatus.PAID else FeeStatus.INACTIVE,
                          transferId := some transferId }),
                    histories := db.histories ++ [newHistory],
                    students := setStudentBatch db.students studentId toBatchId,
                    batches := adjustBatchCount
                      (adjustBatchCount db.batches fromBatchId (-1)) toBatchId 1,
                    nextId := db.nextId + 3, clock := db.clock + 1 }
                ({ status := 200, success := true,
                   message := "Batch switched (SPLIT mode)",
                   payload := some
                     { batchHistory := some (BHField.history newHistory),
                       oldFee := some updatedOldFee, newFee := some newFee,
                       transferId := some transferId } }, db')
            else
              (mkErr 400 "Invalid feeAction provided", db)

/-- The reversal step of `editBatchSwitch` (STEP 1, lines 386–438):
restore the student's batch, restore both batch counts, undo the fee-side
changes when the prior switch created a new fee, and delete the edited
history row.  Pure state transformation, extracted so that theorems can
speak about the intermediate (post-reversal) state. -/
def reverseSwitch (db : DB) (studentId batchHistoryId : Nat)
    (latest : BatchHistory) : DB :=
  let s1 : DB :=
    { db with
      students := setStudentBatch db.students studentId latest.fromBatchId,
      batches := adjustBatchCount
        (adjustBatchCount db.batches latest.fromBatchId 1) latest.toBatchId (-1) }
  let s2 : DB :=
    if latest.feeIdFrom != latest.feeIdTo then
      { s1 with
        payments := reassignPayments s1.payments
          (fun p => p.feeId == latest.feeIdTo && !(isVoided p)) latest.feeIdFrom,
        fees := updateFee (s1.fees.filter (fun f => f.id != latest.feeIdTo))
          latest.feeIdFrom (fun f => { f with status := FeeStatus.PENDING }) }
    else s1
  { s2 with histories := s2.histories.filter (fun h => h.id != batchHistoryId) }

/-- The re-application step of `editBatchSwitch` (STEP 2, lines 456–548),
run on the post-reversal state `s3`.  `curBatchId` is
`currentStudent.currentBatchId`, `activeFee` the freshly resolved open fee,
`toBatch` the target batch loaded before the transaction.  Returns the
state after the fee-policy branch and the trailing student/batch updates
(lines 550–564).  Note what the re-application does NOT share with
`switchBatch`: no SPLIT overpayment rejection, the NEW_FEE payment
reassignment has no status filter, no `advanceAmount` copy, and no
`transferId` stamped on the SPLIT fees. -/
def applyEditPolicy (s3 : DB) (studentId newToBatchId changeDate : Nat)
    (reason newFeeAction : String) (transferId : Nat) (curBatchId : Nat)
    (activeFee : Fee) (toBatch : Batch) : DB :=
  let totalPaid := sumAmounts (feePayments s3.payments activeFee.id)
  let s4 : DB :=
    if newFeeAction == "TRANSFER" then
      let newHistory : BatchHistory :=
        { id := transferId + 1, studentId := studentId,
          fromBatchId := curBatchId, toBatchId := newToBatchId,
          changeDate := changeDate, reason := reason,
          transferId := transferId, feeIdFrom := activeFee.id,
          feeIdTo := activeFee.id, feeManageMode := "TRANSFER",
          createdAt := s3.clock }
      { s3 with histories := s3.histories ++ [newHistory] }
    else if newFeeAction == "NEW_FEE" then
      let newFee : Fee :=
        { id := transferId + 1, studentId := studentId,
          batchId := newToBatchId, totalCourseFee := toBatch.courseBaseFee,
          finalFee := toBatch.courseBaseFee,
          balanceAmount := max (toBatch.courseBaseFee - totalPaid) 0,
          advanceAmount := none, status := FeeStatus.PENDING,
          transferId := none }
      let newHistory : BatchHistory :=
        { id := transferId + 2, studentId := studentId,
          fromBatchId := curBatchId, toBatchId := newToBatchId,
          changeDate := changeDate, reason := reason,
          transferId := transferId, feeIdFrom := activeFee.id,
          feeIdTo := newFee.id, feeManageMode := "NEW_FEE",
          createdAt := s3.clock }
      { s3 with
        fees := updateFee (s3.fees ++ [newFee]) activeFee.id
          (fun f => { f with status := FeeStatus.CANCELLED }),
        payments := reassignPayments s3.payments
          (fun p => p.feeId == activeFee.id) newFee.id,
        histories := s3.histories ++ [newHistory] }
    else if newFeeAction == "SPLIT" then
      let adjusted := max (toBatch.courseBaseFee - totalPaid) 0
      let newFee : Fee :=
        { id := transferId + 1, studentId := studentId,
          batchId := newToBatchId, totalCourseFee := toBatch.courseBaseFee,
          finalFee := adjusted, balanceAmount := adjusted,
          advanceAmount := none, status := FeeStatus.PENDING,
          transferId := none }
      let isPaid := activeFee.balanceAmount == 0 || activeFee.finalFee ≤ totalPaid
      let newHistory : BatchHistory :=
        { id := transferId + 2, studentId := studentId,
          fromBatchId := curBatchId, toBatchId := newToBatchId,
          changeDate := changeDate, reason := reason,
          transferId := transferId, feeIdFrom := activeFee.id,
          feeIdTo := newFee.id, feeManageMode := "SPLIT",
          createdAt := s3.clock }
      { s3 with
        fees := updateFee (s3.fees ++ [newFee]) activeFee.id
          (fun f =>
            { f with
              status := if isPaid then FeeStatus.PAID else FeeStatus.INACTIVE }),
        histories := s3.histories ++ [newHistory] }
    else s3
  { s4 with
    students := setStudentBatch s4.students studentId newToBatchId,
    batches := adjustBatchCount
      (adjustBatchCount s4.batches curBatchId (-1)) newToBatchId 1 }

/-- `editBatchSwitch` (lines 340–582).  The `Active fee missing` throw and
a missing `currentStudent` abort the transaction, leaving the store as it
was (all-or-nothing); they surface through `TryCatch` as a 500. -/
def editBatchSwitch (db : DB) (studentId batchHistoryId newToBatchId changeDate : Nat)
    (reason newFeeAction : String) : Resp × DB :=
  match latestHistoryFor db studentId with
  | none => (mkErr 400 "Only latest switch can be edited", db)
  | some latest =>
    if latest.id != batchHistoryId then
      (mkErr 400 "Only latest switch can be edited", db)
    else
      match findBatch db newToBatchId with
      | none => (mkErr 404 "Target batch not found", db)
      | some toBatch =>
        if toBatch.slotLimit ≤ toBatch.currentCount then
          (mkErr 400 "Target batch is full", db)
        else
          let transferId := db.nextId
          let s3 := reverseSwitch db studentId batchHistoryId latest
          match findStudent s3 studentId with
          | none => (mkErr 500 "Transaction failed", db)
          | some currentStudent =>
            match findOpenFee s3.fees studentId with
            | none => (mkErr 500 "Active fee missing", db)
            | some activeFee =>
              let s5 := applyEditPolicy s3 studentId newToBatchId changeDate
                reason newFeeAction transferId currentStudent.currentBatchId
                activeFee toBatch
              ({ status := 200, success := true,
                 message := "Batch switch edited successfully",
                 payload := none },
               { s5 with nextId := db.nextId + 3, clock := db.clock + 1 })

/-- Abbreviation: the history row a TRANSFER `switchBatch` appends
(fields as in lines 65–77). -/
def transferHistoryRow (db : DB) (sid fromId toId cd : Nat) (rs : String)
    (feeId : Nat) : BatchHistory :=
  { id := db.nextId + 1, studentId := sid, fromBatchId := fromId, toBatchId := toId,
    changeDate := cd, reason := rs, transferId := db.nextId,
    feeIdFrom := feeId, feeIdTo := feeId, feeManageMode := "TRANSFER",
    createdAt := db.clock }

/-- Abbreviation: the store a successful TRANSFER `switchBatch` commits. -/
def transferCommittedDB (db : DB) (sid fromId toId cd : Nat) (rs : String)
    (feeId : Nat) : DB :=
  { db with
    histories := db.histories ++ [transferHistoryRow db sid fromId toId cd rs feeId],
    students := setStudentBatch db.students sid toId,
    batches := adjustBatchCount (adjustBatchCount db.batches fromId (-1)) toId 1,
    nextId := db.nextId + 3, clock := db.clock + 1 }

/-- Abbreviation: the history row a NEW_FEE `switchBatch` appends
(fields as in lines 135–147; the created fee takes id `nextId + 1`). -/
def newFeeHistoryRow (db : DB) (sid fromId toId cd : Nat) (rs : String)
    (feeId : Nat) : BatchHistory :=
  { id := db.nextId + 2, studentId := sid, fromBatchId := fromId, toBatchId := toId,
    changeDate := cd, reason := rs, transferId := db.nextId,
    feeIdFrom := feeId, feeIdTo := db.nextId + 1, feeManageMode := "NEW_FEE",
    createdAt := db.clock }

/-- Abbreviation: the history row a SPLIT `switchBatch` appends
(fields as in lines 259–271). -/
def splitHistoryRow (db : DB) (sid fromId toId cd : Nat) (rs : String)
    (feeId : Nat) : BatchHistory :=
  { id := db.nextId + 2, studentId := sid, fromBatchId := fromId, toBatchId := toId,
    changeDate := cd, reason := rs, transferId := db.nextId,
    feeIdFrom := feeId, feeIdTo := db.nextId + 1, feeManageMode := "SPLIT",
    createdAt := db.clock }

/-- The spec's definition of `totalPaid`: "sum of amounts of all payments
on the open fee excluding those with status CANCELLED/INACTIVE".
Stated from the spec's words, to be compared with the sum the controller
actually computes (`sumAmounts (feePayments ps feeId)`, which has no
status filter). -/
def specTotalPaid (ps : List Payment) (feeId : Nat) : Int :=
  sumAmounts ((feePayments ps feeId).filter (fun p => !(isVoided p)))

/-! ### Concrete states used by witnesses and counterexamples -/

/-- Student 1, enrolled in batch 10. -/
def exSt : Student := { id := 1, currentBatchId := 10 }

def exB10 : Batch := { id := 10, slotLimit := 30, currentCount := 1, courseBaseFee := 500 }

def exB20 : Batch := { id := 20, slotLimit := 30, currentCount := 0, courseBaseFee := 800 }

/-- The student's open fee: PENDING, finalFee 500, balance 500, advance 50. -/
def exFee : Fee :=
  { id := 100, studentId := 1, batchId := 10, totalCourseFee := 500,
    finalFee := 500, balanceAmount := 500, advanceAmount := some 50,
    status := FeeStatus.PENDING, transferId := none }

/-- A live payment of 100 on fee 100. -/
def exPay1 : Payment :=
  { id := 1, studentId := 1, feeId := 100, amount := 100, status := PaymentStatus.COMPLETED }

/-- A CANCELLED payment of 200 on fee 100 — the spec's `totalPaid` must
exclude it. -/
def exPay2 : Payment :=
  { id := 2, studentId := 1, feeId := 100, amount := 200, status := PaymentStatus.CANCELLED }

/-- Base example store. -/
def exDB : DB :=
  { students := [exSt], batches := [exB10, exB20], fees := [exFee],
    payments := [exPay1, exPay2], histories := [], nextId := 1000, clock := 50 }

/-- Same store but the source batch's `currentCount` is 0. -/
def exDB0 : DB :=
  { exDB with batches := [{ exB10 with currentCount := 0 }, exB20] }

/-- State reached after a TRANSFER switch 10 → 20 was recorded: used to
exercise `editBatchSwitch`.  The student's single payment of 600 exceeds
batch 10's `baseFee` of 500, so re-applying a SPLIT back into batch 10
is an overpayment. -/
def exHist9 : BatchHistory :=
  { id := 9, studentId := 1, fromBatchId := 10, toBatchId := 20,
    changeDate := 5, reason := "orig", transferId := 999,
    feeIdFrom := 100, feeIdTo := 100, feeManageMode := "TRANSFER",
    createdAt := 49 }

def exFee600 : Fee :=
  { id := 100, studentId := 1, batchId := 10, totalCourseFee := 1000,
    finalFee := 1000, balanceAmount := 400, advanceAmount := none,
    status := FeeStatus.PENDING, transferId := none }

def exPay600 : Payment :=
  { id := 1, studentId := 1, feeId := 100, amount := 600, status := PaymentStatus.COMPLETED }

def exEditDB : DB :=
  { students := [{ id := 1, currentBatchId := 20 }],
    batches := [{ exB10 with currentCount := 0 }, { exB20 with currentCount := 1 }],
    fees := [exFee600], payments := [exPay600], histories := [exHist9],
    nextId := 1000, clock := 50 }

/-- The post-reversal state the edit engine re-applies from in `exEditDB`. -/
def exRevDB : DB := reverseSwitch exEditDB 1 9 exHist9

/-- The store after a NEW_FEE switch of student 1 from batch 10 to 20 on
`exDB` (new fee id 1001, history id 1002). -/
def exDB2 : DB := (switchBatch exDB 1 10 20 7 "r" "NEW_FEE").2

/-! ### General lemmas about the store operations -/

theorem find?_map_pres {α : Type} (f : α → α) (p : α → Bool)
    (hp : ∀ a, p (f a) = p a) (l : List α) :
    (l.map f).find? p = Option.map f (l.find? p) := by
  rw [List.find?_map]
  have h : p ∘ f = p := funext hp
  rw [h]

theorem findBatch_adjust (bs : List Batch) (i j : Nat) (d : Int) :
    (adjustBatchCount bs j d).find? (fun b => b.id == i) =
      Option.map
        (fun b => if b.id == j then { b with currentCount := b.currentCount + d } else b)
        (bs.find? (fun b => b.id == i)) := by
  apply find?_map_pres
  intro a
  cases h : a.id == j <;> simp [h]

theorem findStudent_set (ss : List Student) (i sid bid : Nat) :
    (setStudentBatch ss sid bid).find? (fun s => s.id == i) =
      Option.map
        (fun s => if s.id == sid then { s with currentBatchId := bid } else s)
        (ss.find? (fun s => s.id == i)) := by
  apply find?_map_pres
  intro a
  cases h : a.id == sid <;> simp [h]

theorem findFee_update (fs : List Fee) (i fid : Nat) (g : Fee → Fee)
    (hg : ∀ f, (g f).id = f.id) :
    (updateFee fs fid g).find? (fun f => f.id == i) =
      Option.map (fun f => if f.id == fid then g f else f)
        (fs.find? (fun f => f.id == i)) := by
  apply find?_map_pres
  intro a
  cases h : a.id == fid <;> simp [h, hg]

theorem foldl_pickLatest_some (l : List BatchHistory) :
    ∀ (b h : BatchHistory), l.foldl pickLatest (some b) = some h → h = b ∨ h ∈ l := by
  induction l with
  | nil =>
    intro b h hh
    simp only [List.foldl] at hh
    exact Or.inl (Option.some.inj hh).symm
  | cons x xs ih =>
    intro b h hh
    simp only [List.foldl, pickLatest] at hh
    by_cases hc : b.createdAt < x.createdAt
    · rw [if_pos hc] at hh
      rcases ih x h hh with h1 | h2
      · exact Or.inr (h1 ▸ List.mem_cons_self x xs)
      · exact Or.inr (List.mem_cons_of_mem x h2)
    · rw [if_neg hc] at hh
      rcases ih b h hh with h1 | h2
      · exact Or.inl h1
      · exact Or.inr (List.mem_cons_of_mem x h2)

theorem foldl_pickLatest_none (l : List BatchHistory) (h : BatchHistory)
    (hh : l.foldl pickLatest none = some h) : h ∈ l := by
  cases l with
  | nil => simp [List.foldl] at hh
  | cons x xs =>
    simp only [List.foldl, pickLatest] at hh
    rcases foldl_pickLatest_some xs x h hh with h1 | h2
    · exact h1 ▸ List.mem_cons_self x xs
    · exact List.mem_cons_of_mem x h2

/-- Appending a history row strictly newer than every row of the student
makes it the row `latestOf` resolves. -/
theorem latestOf_concat_fresh (hs : List BatchHistory) (sid : Nat) (a : BatchHistory)
    (ha : a.studentId = sid)
    (hlt : ∀ h ∈ hs, h.studentId = sid → h.createdAt < a.createdAt) :
    latestOf (hs ++ [a]) sid = some a := by
  unfold latestOf
  rw [List.filter_append]
  have hfa : [a].filter (fun h => h.studentId == sid) = [a] := by
    simp [List.filter, ha]
  rw [hfa, List.foldl_append]
  cases hacc : (hs.filter (fun h => h.studentId == sid)).foldl pickLatest none with
  | none => simp [List.foldl, pickLatest]
  | some b =>
    have hb : b ∈ hs.filter (fun h => h.studentId == sid) :=
      foldl_pickLatest_none _ b hacc
    have hb' := List.mem_filter.mp hb
    have hbsid : b.studentId = sid := by simpa using hb'.2
    have hblt : b.createdAt < a.createdAt := hlt b hb'.1 hbsid
    simp [List.foldl, pickLatest, hblt]

/-! ### Claim C1 -/

/-- C1 counterexample: a successful TRANSFER switch out of a source batch
whose `currentCount` is 0 drives that counter to −1, outside
`[0, slotLimit]` — `switchBatch` never checks the source batch's lower
bound. -/
theorem switchBatch_counts_cex :
    (switchBatch exDB0 1 10 20 7 "r" "TRANSFER").1.success = true ∧
    ((switchBatch exDB0 1 10 20 7 "r" "TRANSFER").2.batches.find?
        (fun b => b.id == 10)).map Batch.currentCount = some (-1) ∧
    ¬ (0 ≤ (-1 : Int)) := by decide

/-- After the occupancy writes shared by all three policies, the target
batch's row gained exactly 1 and the source batch's row lost exactly 1. -/
theorem counts_after_adjust (bs : List Batch) (fromId toId : Nat)
    (toBatch fromBatch : Batch)
    (ht : bs.find? (fun b => b.id == toId) = some toBatch)
    (hfb : bs.find? (fun b => b.id == fromId) = some fromBatch)
    (hne : fromId ≠ toId) :
    (adjustBatchCount (adjustBatchCount bs fromId (-1)) toId 1).find?
        (fun b => b.id == toId) =
      some { toBatch with currentCount := toBatch.currentCount + 1 } ∧
    (adjustBatchCount (adjustBatchCount bs fromId (-1)) toId 1).find?
        (fun b => b.id == fromId) =
      some { fromBatch with currentCount := fromBatch.currentCount + -1 } := by
  have htid : toBatch.id = toId := by
    have := List.find?_some ht
    simpa using this
  have hfid : fromBatch.id = fromId := by
    have := List.find?_some hfb
    simpa using this
  constructor
  · rw [findBatch_adjust, findBatch_adjust, ht]
    simp [htid, Ne.symm hne]
  · rw [findBatch_adjust, findBatch_adjust, hfb]
    simp [hfid, hne]

/-- C1 (amended): for every successful switch between two distinct
batches, the target's `currentCount` is exactly one greater afterwards
and stays within `[0, slotLimit]`; the source's is exactly one smaller,
and stays within `[0, slotLimit]` provided it was at least 1 beforehand —
`switchBatch` checks the target's capacity but never the source's lower
bound. -/
theorem switchBatch_counts (db : DB) (sid fromId toId cd : Nat) (rs fa : String)
    (student : Student) (toBatch fromBatch : Batch) (fee : Fee)
    (hs : findStudent db sid = some student)
    (hsb : student.currentBatchId = fromId)
    (ht : findBatch db toId = some toBatch)
    (htc : toBatch.currentCount < toBatch.slotLimit)
    (hfb : findBatch db fromId = some fromBatch)
    (hf : findPendingFee db.fees sid = some fee)
    (hfa : fa = "TRANSFER" ∨ fa = "NEW_FEE" ∨ fa = "SPLIT")
    (hsplit : fa = "SPLIT" →
      sumAmounts (feePayments db.payments fee.id) ≤ toBatch.courseBaseFee)
    (hne : fromId ≠ toId)
    (h1 : 1 ≤ fromBatch.currentCount)
    (h2 : fromBatch.currentCount ≤ fromBatch.slotLimit)
    (h3 : 0 ≤ toBatch.currentCount) :
    (switchBatch db sid fromId toId cd rs fa).1.success = true ∧
    findBatch (switchBatch db sid fromId toId cd rs fa).2 toId =
      some { toBatch with currentCount := toBatch.currentCount + 1 } ∧
    findBatch (switchBatch db sid fromId toId cd rs fa).2 fromId =
      some { fromBatch with currentCount := fromBatch.currentCount + -1 } ∧
    (0 ≤ toBatch.currentCount + 1 ∧ toBatch.currentCount + 1 ≤ toBatch.slotLimit) ∧
    (0 ≤ fromBatch.currentCount + -1 ∧
      fromBatch.currentCount + -1 ≤ fromBatch.slotLimit) := by
  have hcounts := counts_after_adjust db.batches fromId toId toBatch fromBatch ht hfb hne
  have hbounds : (0 ≤ toBatch.currentCount + 1 ∧
      toBatch.currentCount + 1 ≤ toBatch.slotLimit) ∧
      (0 ≤ fromBatch.currentCount + -1 ∧
        fromBatch.currentCount + -1 ≤ fromBatch.slotLimit) := by
    constructor
    · constructor <;> omega
    · constructor <;> omega
  rcases hfa with hfa | hfa | hfa
  · subst hfa
    unfold switchBatch
    rw [hs, ht, hf]
    simp only [findBatch] at hcounts
    simp [hsb, not_le.mpr htc, findBatch, hcounts.1, hcounts.2, hbounds.1, hbounds.2]
  · subst hfa
    unfold switchBatch
    rw [hs, ht, hf]
    simp only [findBatch] at hcounts
    simp [hsb, not_le.mpr htc, findBatch, hcounts.1, hcounts.2, hbounds.1, hbounds.2]
  · subst hfa
    unfold switchBatch
    rw [hs, ht, hf]
    have hnp : ¬ (toBatch.courseBaseFee < sumAmounts (feePayments db.payments fee.id)) :=
      not_lt.mpr (hsplit rfl)
    simp only [findBatch] at hcounts
    simp [hsb, not_le.mpr htc, hnp, findBatch, hcounts.1, hcounts.2, hbounds.1, hbounds.2]

/-- C1 witness: a concrete successful TRANSFER on `exDB` (source batch 10
at count 1, target batch 20 at count 0 with limit 30). -/
theorem switchBatch_counts_w :
    (switchBatch exDB 1 10 20 7 "r" "TRANSFER").1.success = true ∧
    findBatch (switchBatch exDB 1 10 20 7 "r" "TRANSFER").2 20 =
      some { exB20 with currentCount := exB20.currentCount + 1 } ∧
    findBatch (switchBatch exDB 1 10 20 7 "r" "TRANSFER").2 10 =
      some { exB10 with currentCount := exB10.currentCount + -1 } ∧
    (0 ≤ exB20.currentCount + 1 ∧ exB20.currentCount + 1 ≤ exB20.slotLimit) ∧
    (0 ≤ exB10.currentCount + -1 ∧ exB10.currentCount + -1 ≤ exB10.slotLimit) :=
  switchBatch_counts exDB 1 10 20 7 "r" "TRANSFER" exSt exB20 exB10 exFee
    (by decide) (by decide) (by decide) (by decide) (by decide) (by decide)
    (by decide) (by decide) (by decide) (by decide) (by decide) (by decide)

/-! ### Claim C2 -/

theorem foldl_amount_shift (ps : List Payment) :
    ∀ a : Int, ps.foldl (fun s p => s + p.amount) a =
      a + ps.foldl (fun s p => s + p.amount) 0 := by
  induction ps with
  | nil => intro a; simp [List.foldl]
  | cons p l ih =>
    intro a
    simp only [List.foldl]
    rw [ih (a + p.amount), ih (0 + p.amount)]
    ring

theorem sumAmounts_cons (p : Payment) (l : List Payment) :
    sumAmounts (p :: l) = p.amount + sumAmounts l := by
  unfold sumAmounts
  simp only [List.foldl]
  rw [foldl_amount_shift l (0 + p.amount)]
  ring

/-- Every payment sum splits into its live part and its
CANCELLED/INACTIVE part. -/
theorem sumAmounts_split_voided (ps : List Payment) :
    sumAmounts ps = sumAmounts (ps.filter (fun p => !(isVoided p))) +
      sumAmounts (ps.filter (fun p => isVoided p)) := by
  induction ps with
  | nil => rfl
  | cons p l ih =>
    cases hv : isVoided p <;>
      simp [List.filter, hv, sumAmounts_cons, ih] <;> ring

/-- C2 counterexample: on a fee with a live payment of 100 and a CANCELLED
payment of 200, the spec's `totalPaid` is 100, but the NEW_FEE policy
computes the new balance from 300 — the sum of all payments, CANCELLED
included — producing balance 500 instead of 700. -/
theorem totalPaid_cex :
    specTotalPaid exDB.payments 100 = 100 ∧
    sumAmounts (feePayments exDB.payments 100) = 300 ∧
    ((switchBatch exDB 1 10 20 7 "r" "NEW_FEE").2.fees.find?
        (fun f => f.id == 1001)).map Fee.balanceAmount = some 500 ∧
    max (800 - specTotalPaid exDB.payments 100) 0 = 700 := by decide

/-- A freshly appended fee survives an `updateFee` aimed at a different
id and is the final row of the table. -/
theorem getLast?_updateFee_concat (fs : List Fee) (a : Fee) (fid : Nat) (g : Fee → Fee)
    (ha : a.id ≠ fid) :
    (updateFee (fs ++ [a]) fid g).getLast? = some a := by
  unfold updateFee
  rw [List.map_append]
  simp only [List.map]
  rw [if_neg (by simpa using ha)]
  exact List.getLast?_concat _

/-- C2 (amended): the `totalPaid` value used by the fee policies of both
`switchBatch` and `editBatchSwitch` is the sum of the amounts of ALL
payments attributed to the open fee — the spec's live part PLUS the
CANCELLED/INACTIVE part, with no status exclusion.  Witnessed here on the
created NEW_FEE balance in both engines. -/
theorem totalPaid_sums_all_payments (db : DB) (sid fromId toId cd : Nat) (rs : String)
    (student : Student) (toBatch : Batch) (fee : Fee)
    (hs : findStudent db sid = some student)
    (hsb : student.currentBatchId = fromId)
    (ht : findBatch db toId = some toBatch)
    (htc : toBatch.currentCount < toBatch.slotLimit)
    (hf : findPendingFee db.fees sid = some fee)
    (hfresh : fee.id ≠ db.nextId + 1)
    (s3 : DB) (sid2 newTo cd2 tid cur : Nat) (rs2 : String)
    (activeFee : Fee) (tb2 : Batch)
    (hfresh2 : activeFee.id ≠ tid + 1) :
    ((switchBatch db sid fromId toId cd rs "NEW_FEE").2.fees.getLast?).map
        Fee.balanceAmount =
      some (max (toBatch.courseBaseFee -
        (specTotalPaid db.payments fee.id +
          sumAmounts ((feePayments db.payments fee.id).filter (fun p => isVoided p)))) 0) ∧
    ((applyEditPolicy s3 sid2 newTo cd2 rs2 "NEW_FEE" tid cur activeFee tb2).fees.getLast?).map
        Fee.balanceAmount =
      some (max (tb2.courseBaseFee -
        (specTotalPaid s3.payments activeFee.id +
          sumAmounts ((feePayments s3.payments activeFee.id).filter (fun p => isVoided p)))) 0) := by
  have hsum : ∀ (ps : List Payment) (fid : Nat),
      specTotalPaid ps fid +
        sumAmounts ((feePayments ps fid).filter (fun p => isVoided p)) =
      sumAmounts (feePayments ps fid) := by
    intro ps fid
    rw [specTotalPaid, ← sumAmounts_split_voided]
  constructor
  · rw [hsum]
    unfold switchBatch
    rw [hs, ht, hf]
    simp [hsb, not_le.mpr htc]
    exact ⟨_, getLast?_updateFee_concat _ _ _ _ (Ne.symm hfresh), rfl⟩
  · rw [hsum]
    unfold applyEditPolicy
    simp
    exact ⟨_, getLast?_updateFee_concat _ _ _ _ (Ne.symm hfresh2), rfl⟩

/-- C2 witness: the switch half on `exDB` (live 100 + cancelled 200 gives
balance `max(800 − 300, 0) = 500`) and the edit half on `exRevDB` (paid
600 against `baseFee` 500 gives balance 0). -/
theorem totalPaid_sums_all_payments_w :
    ((switchBatch exDB 1 10 20 7 "r" "NEW_FEE").2.fees.getLast?).map
        Fee.balanceAmount =
      some (max (exB20.courseBaseFee -
        (specTotalPaid exDB.payments 100 +
          sumAmounts ((feePayments exDB.payments 100).filter (fun p => isVoided p)))) 0) ∧
    ((applyEditPolicy exRevDB 1 10 8 "e" "NEW_FEE" 1000 10 exFee600
        { id := 10, slotLimit := 30, currentCount := 1, courseBaseFee := 500 }).fees.getLast?).map
        Fee.balanceAmount =
      some (max ((500 : Int) -
        (specTotalPaid exRevDB.payments 100 +
          sumAmounts ((feePayments exRevDB.payments 100).filter (fun p => isVoided p)))) 0) := by
  have h := totalPaid_sums_all_payments exDB 1 10 20 7 "r" exSt exB20 exFee
    (by decide) (by decide) (by decide) (by decide) (by decide) (by decide)
    exRevDB 1 10 8 1000 10 "e" exFee600
    { id := 10, slotLimit := 30, currentCount := 1, courseBaseFee := 500 }
    (by decide)
  simpa using h

/-! ### Claim C3 -/

/-- C3 counterexample: on the post-reversal state `exRevDB` the student
has paid 600 against a target `baseFee` of 500, so `switchBatch`'s SPLIT
branch rejects with the overpayment error and mutates nothing — yet
`editBatchSwitch`'s SPLIT re-application on the same state succeeds and
creates the new fee: the re-application does not perform the same
mutations as `switchBatch`'s policy branch. -/
theorem editReapply_cex :
    (editBatchSwitch exEditDB 1 9 10 8 "e" "SPLIT").1.success = true ∧
    (editBatchSwitch exEditDB 1 9 10 8 "e" "SPLIT").2.fees.length = 2 ∧
    (switchBatch exRevDB 1 10 10 8 "e" "SPLIT").1 =
      mkErr 400 "Student has paid more than the new batch fee. Please create a new admission." ∧
    (switchBatch exRevDB 1 10 10 8 "e" "SPLIT").2 = exRevDB := by decide

/-- C3 (amended): only for TRANSFER does the edit engine's re-application
step perform exactly the mutations of `switchBatch`'s corresponding
policy branch: run from the same state with the same fresh transferId,
both produce identical stores (up to the allocator bookkeeping the edit
engine applies at commit).  For NEW_FEE the re-application reassigns all
payments of the fee regardless of status and drops `advanceAmount`; for
SPLIT it omits the overpayment rejection and the `transferId` stamps —
see the counterexample. -/
theorem editReapplyTransferAgrees (s3 : DB) (sid newTo cd : Nat) (rs : String)
    (cs : Student) (tb : Batch) (fee : Fee)
    (hs : findStudent s3 sid = some cs)
    (ht : findBatch s3 newTo = some tb)
    (htc : tb.currentCount < tb.slotLimit)
    (hf : findPendingFee s3.fees sid = some fee) :
    (switchBatch s3 sid cs.currentBatchId newTo cd rs "TRANSFER").1.success = true ∧
    (switchBatch s3 sid cs.currentBatchId newTo cd rs "TRANSFER").2 =
      { applyEditPolicy s3 sid newTo cd rs "TRANSFER" s3.nextId cs.currentBatchId fee tb with
        nextId := s3.nextId + 3, clock := s3.clock + 1 } := by
  constructor
  · unfold switchBatch
    rw [hs, ht, hf]
    simp [not_le.mpr htc]
  · unfold switchBatch applyEditPolicy
    rw [hs, ht, hf]
    simp [not_le.mpr htc]

/-- C3 witness: on the post-reversal state `exRevDB` the TRANSFER
re-application and `switchBatch`'s TRANSFER branch produce the same
store. -/
theorem editReapplyTransferAgrees_w :
    (switchBatch exRevDB 1 10 20 8 "e" "TRANSFER").1.success = true ∧
    (switchBatch exRevDB 1 10 20 8 "e" "TRANSFER").2 =
      { applyEditPolicy exRevDB 1 20 8 "e" "TRANSFER" exRevDB.nextId 10 exFee600 exB20 with
        nextId := exRevDB.nextId + 3, clock := exRevDB.clock + 1 } := by
  have h := editReapplyTransferAgrees exRevDB 1 20 8 "e"
    { id := 1, currentBatchId := 10 } exB20 exFee600
    (by decide) (by decide) (by decide) (by decide)
  simpa using h

/-! ### Claims C4 and C5 -/

/-- Updating a fee row by id, after appending a fresh row, rewrites
exactly the row `find?` resolved before. -/
theorem find?_updateFee_concat (fs : List Fee) (nf : Fee) (fid : Nat) (g : Fee → Fee)
    (fee : Fee) (hg : ∀ f, (g f).id = f.id)
    (hff : fs.find? (fun f => f.id == fid) = some fee) :
    (updateFee (fs ++ [nf]) fid g).find? (fun f => f.id == fid) = some (g fee) := by
  rw [findFee_update _ _ _ _ hg, List.find?_append, hff]
  have hb : (fee.id == fid) = true := by simpa using List.find?_some hff
  simp [Option.or, hb]
  intro h
  exact absurd (by simpa using hb) h

/-- `find?_updateFee_concat` specialised to a status-and-transferId
rewrite (the SPLIT old-fee update). -/
theorem find?_updateFee_concat_split (fs : List Fee) (nf : Fee) (fee : Fee)
    (st : FeeStatus) (tid : Option Nat)
    (hff : fs.find? (fun f => f.id == fee.id) = some fee) :
    (updateFee (fs ++ [nf]) fee.id
        (fun f => { f with status := st, transferId := tid })).find?
      (fun f => f.id == fee.id) = some { fee with status := st, transferId := tid } :=
  find?_updateFee_concat fs nf fee.id _ fee (fun _ => rfl) hff

/-- `find?_updateFee_concat` specialised to a status-only rewrite (the
NEW_FEE old-fee cancellation). -/
theorem find?_updateFee_concat_status (fs : List Fee) (nf : Fee) (fee : Fee)
    (st : FeeStatus)
    (hff : fs.find? (fun f => f.id == fee.id) = some fee) :
    (updateFee (fs ++ [nf]) fee.id (fun f => { f with status := st })).find?
      (fun f => f.id == fee.id) = some { fee with status := st } :=
  find?_updateFee_concat fs nf fee.id _ fee (fun _ => rfl) hff

/-- Reassigning payments to a new fee never changes amounts, statuses or
identities — only `feeId`. -/
theorem reassign_preserves (ps : List Payment) (cond : Payment → Bool) (nid : Nat) :
    (reassignPayments ps cond nid).map Payment.amount = ps.map Payment.amount ∧
    (reassignPayments ps cond nid).map Payment.status = ps.map Payment.status ∧
    (reassignPayments ps cond nid).map Payment.id = ps.map Payment.id := by
  unfold reassignPayments
  refine ⟨?_, ?_, ?_⟩ <;>
    · rw [List.map_map]
      apply List.map_congr_left
      intro p hp
      cases h : cond p <;> simp [h]

/-- C4: a successful SPLIT switch creates a new PENDING fee whose
`finalFee` and `balanceAmount` both equal
`max(baseFee − totalPaid, 0)`, reassigns no payments, and moves the old
fee to PAID when its balance is 0 or `totalPaid ≥ finalFee`, else to
INACTIVE (stamping `transferId` on both rows).  `totalPaid` denotes the
sum the engine computes (see C2). -/
theorem splitPolicy (db : DB) (sid fromId toId cd : Nat) (rs : String)
    (student : Student) (toBatch : Batch) (fee : Fee)
    (hs : findStudent db sid = some student)
    (hsb : student.currentBatchId = fromId)
    (ht : findBatch db toId = some toBatch)
    (htc : toBatch.currentCount < toBatch.slotLimit)
    (hf : findPendingFee db.fees sid = some fee)
    (hff : db.fees.find? (fun f => f.id == fee.id) = some fee)
    (hfresh : fee.id ≠ db.nextId + 1)
    (hpaid : sumAmounts (feePayments db.payments fee.id) ≤ toBatch.courseBaseFee) :
    (switchBatch db sid fromId toId cd rs "SPLIT").1.success = true ∧
    (switchBatch db sid fromId toId cd rs "SPLIT").2.fees.getLast? = some
      { id := db.nextId + 1, studentId := sid, batchId := toId,
        totalCourseFee := toBatch.courseBaseFee,
        finalFee := max (toBatch.courseBaseFee -
          sumAmounts (feePayments db.payments fee.id)) 0,
        balanceAmount := max (toBatch.courseBaseFee -
          sumAmounts (feePayments db.payments fee.id)) 0,
        advanceAmount := none, status := FeeStatus.PENDING,
        transferId := some db.nextId } ∧
    (switchBatch db sid fromId toId cd rs "SPLIT").2.payments = db.payments ∧
    ((fee.balanceAmount = 0 ∨ fee.finalFee ≤ sumAmounts (feePayments db.payments fee.id)) →
      (switchBatch db sid fromId toId cd rs "SPLIT").2.fees.find?
          (fun f => f.id == fee.id) =
        some { fee with status := FeeStatus.PAID, transferId := some db.nextId }) ∧
    ((fee.balanceAmount ≠ 0 ∧ sumAmounts (feePayments db.payments fee.id) < fee.finalFee) →
      (switchBatch db sid fromId toId cd rs "SPLIT").2.fees.find?
          (fun f => f.id == fee.id) =
        some { fee with status := FeeStatus.INACTIVE, transferId := some db.nextId }) := by
  have hnp : ¬ (toBatch.courseBaseFee < sumAmounts (feePayments db.payments fee.id)) :=
    not_lt.mpr hpaid
  refine ⟨?_, ?_, ?_, ?_, ?_⟩
  · unfold switchBatch
    rw [hs, ht, hf]
    simp [hsb, not_le.mpr htc, hnp]
  · unfold switchBatch
    rw [hs, ht, hf]
    simp [hsb, not_le.mpr htc, hnp]
    exact getLast?_updateFee_concat _ _ _ _ (Ne.symm hfresh)
  · unfold switchBatch
    rw [hs, ht, hf]
    simp [hsb, not_le.mpr htc, hnp]
  · intro hp
    unfold switchBatch
    rw [hs, ht, hf]
    simp [hsb, not_le.mpr htc, hnp]
    rw [find?_updateFee_concat_split _ _ _ _ _ hff]
    rw [if_pos hp]
  · intro hp
    unfold switchBatch
    rw [hs, ht, hf]
    simp [hsb, not_le.mpr htc, hnp]
    rw [find?_updateFee_concat_split _ _ _ _ _ hff]
    rw [if_neg (not_or.mpr ⟨hp.1, not_le.mpr hp.2⟩)]

/-- C4 witness: SPLIT on `exDB` — the new fee carries
`finalFee = balanceAmount = max(800 − 300, 0)`, no payment moves, and the
old fee (balance 500 ≠ 0, paid 300 < finalFee 500) becomes INACTIVE. -/
theorem splitPolicy_w :
    (switchBatch exDB 1 10 20 7 "r" "SPLIT").1.success = true ∧
    (switchBatch exDB 1 10 20 7 "r" "SPLIT").2.fees.getLast? = some
      { id := exDB.nextId + 1, studentId := 1, batchId := 20,
        totalCourseFee := exB20.courseBaseFee,
        finalFee := max (exB20.courseBaseFee -
          sumAmounts (feePayments exDB.payments exFee.id)) 0,
        balanceAmount := max (exB20.courseBaseFee -
          sumAmounts (feePayments exDB.payments exFee.id)) 0,
        advanceAmount := none, status := FeeStatus.PENDING,
        transferId := some exDB.nextId } ∧
    (switchBatch exDB 1 10 20 7 "r" "SPLIT").2.payments = exDB.payments ∧
    ((exFee.balanceAmount = 0 ∨
        exFee.finalFee ≤ sumAmounts (feePayments exDB.payments exFee.id)) →
      (switchBatch exDB 1 10 20 7 "r" "SPLIT").2.fees.find?
          (fun f => f.id == exFee.id) =
        some { exFee with status := FeeStatus.PAID, transferId := some exDB.nextId }) ∧
    ((exFee.balanceAmount ≠ 0 ∧
        sumAmounts (feePayments exDB.payments exFee.id) < exFee.finalFee) →
      (switchBatch exDB 1 10 20 7 "r" "SPLIT").2.fees.find?
          (fun f => f.id == exFee.id) =
        some { exFee with status := FeeStatus.INACTIVE, transferId := some exDB.nextId }) :=
  splitPolicy exDB 1 10 20 7 "r" exSt exB20 exFee
    (by decide) (by decide) (by decide) (by decide) (by decide) (by decide)
    (by decide) (by decide)

/-- C5: a successful NEW_FEE switch creates a new PENDING fee with
`finalFee = baseFee`, `balanceAmount = max(baseFee − totalPaid, 0)` and
the old fee's `advanceAmount`; reassigns exactly the live (non
CANCELLED/INACTIVE) payments of the old fee to it, changing only their
`feeId`; and soft-cancels the old fee, which stays in the table.
`totalPaid` denotes the sum the engine computes (see C2). -/
theorem newFeePolicy (db : DB) (sid fromId toId cd : Nat) (rs : String)
    (student : Student) (toBatch : Batch) (fee : Fee)
    (hs : findStudent db sid = some student)
    (hsb : student.currentBatchId = fromId)
    (ht : findBatch db toId = some toBatch)
    (htc : toBatch.currentCount < toBatch.slotLimit)
    (hf : findPendingFee db.fees sid = some fee)
    (hff : db.fees.find? (fun f => f.id == fee.id) = some fee)
    (hfresh : fee.id ≠ db.nextId + 1) :
    (switchBatch db sid fromId toId cd rs "NEW_FEE").1.success = true ∧
    (switchBatch db sid fromId toId cd rs "NEW_FEE").2.fees.getLast? = some
      { id := db.nextId + 1, studentId := sid, batchId := toId,
        totalCourseFee := toBatch.courseBaseFee,
        finalFee := toBatch.courseBaseFee,
        balanceAmount := max (toBatch.courseBaseFee -
          sumAmounts (feePayments db.payments fee.id)) 0,
        advanceAmount := fee.advanceAmount, status := FeeStatus.PENDING,
        transferId := none } ∧
    (switchBatch db sid fromId toId cd rs "NEW_FEE").2.fees.find?
        (fun f => f.id == fee.id) =
      some { fee with status := FeeStatus.CANCELLED } ∧
    (switchBatch db sid fromId toId cd rs "NEW_FEE").2.payments =
      reassignPayments db.payments
        (fun p => p.studentId == sid && p.feeId == fee.id && !(isVoided p))
        (db.nextId + 1) ∧
    (∀ p ∈ db.payments, p.studentId = sid → p.feeId = fee.id → isVoided p = false →
      { p with feeId := db.nextId + 1 } ∈
        (switchBatch db sid fromId toId cd rs "NEW_FEE").2.payments) ∧
    (∀ p ∈ db.payments, isVoided p = true →
      p ∈ (switchBatch db sid fromId toId cd rs "NEW_FEE").2.payments) ∧
    (switchBatch db sid fromId toId cd rs "NEW_FEE").2.payments.map Payment.amount =
      db.payments.map Payment.amount ∧
    (switchBatch db sid fromId toId cd rs "NEW_FEE").2.payments.map Payment.status =
      db.payments.map Payment.status := by
  refine ⟨?_, ?_, ?_, ?_, ?_, ?_, ?_, ?_⟩
  · unfold switchBatch
    rw [hs, ht, hf]
    simp [hsb, not_le.mpr htc]
  · unfold switchBatch
    rw [hs, ht, hf]
    simp [hsb, not_le.mpr htc]
    exact getLast?_updateFee_concat _ _ _ _ (Ne.symm hfresh)
  · unfold switchBatch
    rw [hs, ht, hf]
    simp [hsb, not_le.mpr htc]
    rw [find?_updateFee_concat_status _ _ _ _ hff]
  · unfold switchBatch
    rw [hs, ht, hf]
    simp [hsb, not_le.mpr htc]
  · intro p hp h1 h2 h3
    unfold switchBatch
    rw [hs, ht, hf]
    simp [hsb, not_le.mpr htc]
    refine List.mem_map.mpr ⟨p, hp, ?_⟩
    simp [h1, h2, h3]
  · intro p hp hv
    unfold switchBatch
    rw [hs, ht, hf]
    simp [hsb, not_le.mpr htc]
    refine List.mem_map.mpr ⟨p, hp, ?_⟩
    simp [hv]
  · unfold switchBatch
    rw [hs, ht, hf]
    simp [hsb, not_le.mpr htc]
    exact (reassign_preserves _ _ _).1
  · unfold switchBatch
    rw [hs, ht, hf]
    simp [hsb, not_le.mpr htc]
    exact (reassign_preserves _ _ _).2.1

/-- C5 witness: NEW_FEE on `exDB` — the new fee (id 1001) copies
`advanceAmount` 50; the live payment 1 moves to it while the CANCELLED
payment 2 stays on fee 100; the old fee is CANCELLED but still stored. -/
theorem newFeePolicy_w :
    (switchBatch exDB 1 10 20 7 "r" "NEW_FEE").1.success = true ∧
    (switchBatch exDB 1 10 20 7 "r" "NEW_FEE").2.fees.getLast? = some
      { id := exDB.nextId + 1, studentId := 1, batchId := 20,
        totalCourseFee := exB20.courseBaseFee,
        finalFee := exB20.courseBaseFee,
        balanceAmount := max (exB20.courseBaseFee -
          sumAmounts (feePayments exDB.payments exFee.id)) 0,
        advanceAmount := exFee.advanceAmount, status := FeeStatus.PENDING,
        transferId := none } ∧
    (switchBatch exDB 1 10 20 7 "r" "NEW_FEE").2.fees.find?
        (fun f => f.id == exFee.id) =
      some { exFee with status := FeeStatus.CANCELLED } ∧
    (switchBatch exDB 1 10 20 7 "r" "NEW_FEE").2.payments =
      reassignPayments exDB.payments
        (fun p => p.studentId == 1 && p.feeId == exFee.id && !(isVoided p))
        (exDB.nextId + 1) ∧
    (∀ p ∈ exDB.payments, p.studentId = 1 → p.feeId = exFee.id → isVoided p = false →
      { p with feeId := exDB.nextId + 1 } ∈
        (switchBatch exDB 1 10 20 7 "r" "NEW_FEE").2.payments) ∧
    (∀ p ∈ exDB.payments, isVoided p = true →
      p ∈ (switchBatch exDB 1 10 20 7 "r" "NEW_FEE").2.payments) ∧
    (switchBatch exDB 1 10 20 7 "r" "NEW_FEE").2.payments.map Payment.amount =
      exDB.payments.map Payment.amount ∧
    (switchBatch exDB 1 10 20 7 "r" "NEW_FEE").2.payments.map Payment.status =
      exDB.payments.map Payment.status :=
  newFeePolicy exDB 1 10 20 7 "r" exSt exB20 exFee
    (by decide) (by decide) (by decide) (by decide) (by decide) (by decide)
    (by decide)

/-! ### Claim C6 -/

/-- C6: a SPLIT switch where the payments summed by the controller exceed
the target course's `baseFee` is rejected with the 400 business-rule
response, and the returned store is exactly the input store — no entity
is mutated. -/
theorem splitOverpaidRejected (db : DB) (sid fromId toId cd : Nat) (rs : String)
    (student : Student) (toBatch : Batch) (fee : Fee)
    (hs : findStudent db sid = some student)
    (hsb : student.currentBatchId = fromId)
    (ht : findBatch db toId = some toBatch)
    (htc : toBatch.currentCount < toBatch.slotLimit)
    (hf : findPendingFee db.fees sid = some fee)
    (hpaid : toBatch.courseBaseFee < sumAmounts (feePayments db.payments fee.id)) :
    switchBatch db sid fromId toId cd rs "SPLIT" =
      (mkErr 400 "Student has paid more than the new batch fee. Please create a new admission.",
        db) := by
  unfold switchBatch
  rw [hs, ht, hf]
  simp [hsb, not_le.mpr htc, hpaid]

/-- C6 witness: on `exRevDB` (paid 600, target `baseFee` 500) the SPLIT
switch is the pure rejection. -/
theorem splitOverpaidRejected_w :
    switchBatch exRevDB 1 10 10 8 "e" "SPLIT" =
      (mkErr 400 "Student has paid more than the new batch fee. Please create a new admission.",
        exRevDB) :=
  splitOverpaidRejected exRevDB 1 10 10 8 "e"
    { id := 1, currentBatchId := 10 }
    { id := 10, slotLimit := 30, currentCount := 1, courseBaseFee := 500 }
    exFee600 (by decide) (by decide) (by decide) (by decide) (by decide) (by decide)

/-! ### Claim C7 -/

/-- C7 counterexample: a NEW_FEE switch followed by editing it back to the
original batch with the original fee action leaves the student's open fee
with balance `max(500 − 300, 0) = 200`, not the pre-switch balance 500:
the round trip recomputes the balance instead of restoring it. -/
theorem roundTrip_cex :
    (findOpenFee exDB.fees 1).map Fee.balanceAmount = some 500 ∧
    (switchBatch exDB 1 10 20 7 "r" "NEW_FEE").1.success = true ∧
    (editBatchSwitch exDB2 1 1002 10 8 "e" "NEW_FEE").1.success = true ∧
    (findOpenFee (editBatchSwitch exDB2 1 1002 10 8 "e" "NEW_FEE").2.fees 1).map
      Fee.balanceAmount = some 200 ∧
    ((findOpenFee (editBatchSwitch exDB2 1 1002 10 8 "e" "NEW_FEE").2.fees 1).map
      Fee.balanceAmount ≠ some 500) := by decide

/-! ### Round-trip lemmas (claim C7) -/

theorem reverseSwitch_histories (db : DB) (sid bhId : Nat) (latest : BatchHistory) :
    (reverseSwitch db sid bhId latest).histories =
      db.histories.filter (fun h => h.id != bhId) := by
  unfold reverseSwitch
  cases h : (latest.feeIdFrom != latest.feeIdTo) <;> simp [h]

theorem reverseSwitch_students (db : DB) (sid bhId : Nat) (latest : BatchHistory) :
    (reverseSwitch db sid bhId latest).students =
      setStudentBatch db.students sid latest.fromBatchId := by
  unfold reverseSwitch
  cases h : (latest.feeIdFrom != latest.feeIdTo) <;> simp [h]

theorem reverseSwitch_batches (db : DB) (sid bhId : Nat) (latest : BatchHistory) :
    (reverseSwitch db sid bhId latest).batches =
      adjustBatchCount (adjustBatchCount db.batches latest.fromBatchId 1)
        latest.toBatchId (-1) := by
  unfold reverseSwitch
  cases h : (latest.feeIdFrom != latest.feeIdTo) <;> simp [h]

theorem reverseSwitch_nextId (db : DB) (sid bhId : Nat) (latest : BatchHistory) :
    (reverseSwitch db sid bhId latest).nextId = db.nextId := by
  unfold reverseSwitch
  cases h : (latest.feeIdFrom != latest.feeIdTo) <;> simp [h]

theorem reverseSwitch_clock (db : DB) (sid bhId : Nat) (latest : BatchHistory) :
    (reverseSwitch db sid bhId latest).clock = db.clock := by
  unfold reverseSwitch
  cases h : (latest.feeIdFrom != latest.feeIdTo) <;> simp [h]

theorem reverseSwitch_fees_same (db : DB) (sid bhId : Nat) (latest : BatchHistory)
    (hsame : latest.feeIdFrom = latest.feeIdTo) :
    (reverseSwitch db sid bhId latest).fees = db.fees := by
  unfold reverseSwitch
  simp [hsame]

theorem reverseSwitch_payments_same (db : DB) (sid bhId : Nat) (latest : BatchHistory)
    (hsame : latest.feeIdFrom = latest.feeIdTo) :
    (reverseSwitch db sid bhId latest).payments = db.payments := by
  unfold reverseSwitch
  simp [hsame]

/-- The six occupancy writes of a switch (−1/+1), its reversal (+1/−1)
and a re-application back into the source batch (−1/+1 on the same
batch) cancel exactly, restoring every batch row. -/
theorem adjust_roundtrip (bs : List Batch) (f t : Nat) :
    adjustBatchCount (adjustBatchCount (adjustBatchCount (adjustBatchCount
      (adjustBatchCount (adjustBatchCount bs f (-1)) t 1) f 1) t (-1)) f (-1)) f 1
      = bs := by
  induction bs with
  | nil => rfl
  | cons b l ih =>
    unfold adjustBatchCount at ih ⊢
    simp only [List.map_cons]
    rw [ih]
    obtain ⟨bid, bsl, bc, bbf⟩ := b
    by_cases h1 : bid = f <;> by_cases h2 : bid = t
    · have hft : f = t := h1.symm.trans h2
      simp [h1, hft]
      try ring
    · have hft : f ≠ t := fun he => h2 (h1.trans he)
      simp [h1, hft]
      try ring
    · have htf : t ≠ f := fun he => h1 (h2.trans he)
      simp [h2, htf]
      try ring
    · simp [h1, h2]

/-- Whatever the fee action, the edit re-application's trailing writes
give the student and occupancy updates of lines 550–564; no policy
branch touches students or batches. -/
theorem applyEditPolicy_proj_any (s3 : DB) (sid newTo cd : Nat) (rs fa : String)
    (tid cur : Nat) (af : Fee) (tb : Batch) :
    (applyEditPolicy s3 sid newTo cd rs fa tid cur af tb).students =
      setStudentBatch s3.students sid newTo ∧
    (applyEditPolicy s3 sid newTo cd rs fa tid cur af tb).batches =
      adjustBatchCount (adjustBatchCount s3.batches cur (-1)) newTo 1 := by
  simp only [applyEditPolicy]
  constructor <;> (repeat' split) <;> rfl

/-- Branch-generic core of the round trip: run the edit engine, with any
fee action, on a state of the shape a successful switch commits
(history appended, student moved to `toId`, counters adjusted), asking
it to move the student back to `fromId`.  The edit succeeds and restores
the student row and every batch row. -/
theorem edit_back_restores_core (db D1 : DB) (sid fromId toId bhId cd2 : Nat)
    (rs2 fa2 : String) (H : BatchHistory) (student : Student)
    (toBatch fromBatch : Batch) (af : Fee)
    (hD1h : D1.histories = db.histories ++ [H])
    (hD1s : D1.students = setStudentBatch db.students sid toId)
    (hD1b : D1.batches = adjustBatchCount (adjustBatchCount db.batches fromId (-1)) toId 1)
    (hH1 : H.studentId = sid) (hH2 : H.createdAt = db.clock)
    (hH3 : H.fromBatchId = fromId) (hH4 : H.toBatchId = toId)
    (hbh : H.id = bhId)
    (hs : findStudent db sid = some student)
    (hsb : student.currentBatchId = fromId)
    (ht : findBatch db toId = some toBatch)
    (hfb : findBatch db fromId = some fromBatch)
    (hfbc : fromBatch.currentCount ≤ fromBatch.slotLimit)
    (hne : fromId ≠ toId)
    (hclk : ∀ h ∈ db.histories, h.studentId = sid → h.createdAt < db.clock)
    (hof2 : findOpenFee (reverseSwitch D1 sid bhId H).fees sid = some af) :
    (editBatchSwitch D1 sid bhId fromId cd2 rs2 fa2).1.success = true ∧
    findStudent (editBatchSwitch D1 sid bhId fromId cd2 rs2 fa2).2 sid = some student ∧
    (editBatchSwitch D1 sid bhId fromId cd2 rs2 fa2).2.batches = db.batches := by
  have hstid : (student.id == sid) = true := by simpa using List.find?_some hs
  have hsid2 : student.id = sid := by simpa using hstid
  have hseta2 : ({ id := sid, currentBatchId := fromId } : Student) = student := by
    obtain ⟨a, b⟩ := student
    have h1 : a = sid := by simpa using hstid
    have h2 : b = fromId := hsb
    rw [h1, h2]
  have hs' : db.students.find? (fun s => s.id == sid) = some student := hs
  have hlat : latestHistoryFor D1 sid = some H := by
    show latestOf D1.histories sid = some H
    rw [hD1h]
    exact latestOf_concat_fresh db.histories sid H hH1
      (by intro h hm hsid; rw [hH2]; exact hclk h hm hsid)
  have hguard : (H.id != bhId) = false := by
    rw [hbh]
    simp
  have hfbD : findBatch D1 fromId =
      some { fromBatch with currentCount := fromBatch.currentCount + -1 } := by
    show D1.batches.find? (fun b => b.id == fromId) = _
    rw [hD1b]
    exact (counts_after_adjust db.batches fromId toId toBatch fromBatch ht hfb hne).2
  have hcap2 : ¬ (fromBatch.slotLimit ≤ fromBatch.currentCount + -1) := by omega
  have hcsD : findStudent (reverseSwitch D1 sid bhId H) sid = some student := by
    show (reverseSwitch D1 sid bhId H).students.find? (fun s => s.id == sid) = some student
    rw [reverseSwitch_students, hD1s, hH3]
    rw [findStudent_set, findStudent_set, hs']
    simp [hsid2, hseta2]
  refine ⟨?_, ?_, ?_⟩
  · unfold editBatchSwitch
    simp only [hlat, hguard, Bool.false_eq_true, if_false, hfbD, if_neg hcap2, hcsD, hof2]
  · have hPs : (editBatchSwitch D1 sid bhId fromId cd2 rs2 fa2).2.students =
        setStudentBatch (setStudentBatch (setStudentBatch db.students sid toId) sid fromId)
          sid fromId := by
      unfold editBatchSwitch
      simp only [hlat, hguard, Bool.false_eq_true, if_false, hfbD, if_neg hcap2, hcsD, hof2]
      rw [(applyEditPolicy_proj_any _ _ _ _ _ _ _ _ _ _).1, reverseSwitch_students,
        hD1s, hH3]
    show ((editBatchSwitch D1 sid bhId fromId cd2 rs2 fa2).2.students).find?
        (fun s => s.id == sid) = some student
    rw [hPs]
    rw [findStudent_set, findStudent_set, findStudent_set, hs']
    simp [hsid2, hseta2]
  · have hPb : (editBatchSwitch D1 sid bhId fromId cd2 rs2 fa2).2.batches =
        adjustBatchCount (adjustBatchCount (adjustBatchCount (adjustBatchCount
          (adjustBatchCount (adjustBatchCount db.batches fromId (-1)) toId 1) fromId 1)
          toId (-1)) fromId (-1)) fromId 1 := by
      unfold editBatchSwitch
      simp only [hlat, hguard, Bool.false_eq_true, if_false, hfbD, if_neg hcap2, hcsD, hof2]
      rw [(applyEditPolicy_proj_any _ _ _ _ _ _ _ _ _ _).2, reverseSwitch_batches,
        hD1b, hH3, hH4, hsb]
    rw [hPb]
    exact adjust_roundtrip db.batches fromId toId

theorem applyEditPolicy_transfer_proj (s3 : DB) (sid newTo cd : Nat) (rs : String)
    (tid cur : Nat) (af : Fee) (tb : Batch) :
    (applyEditPolicy s3 sid newTo cd rs "TRANSFER" tid cur af tb).students =
      setStudentBatch s3.students sid newTo ∧
    (applyEditPolicy s3 sid newTo cd rs "TRANSFER" tid cur af tb).batches =
      adjustBatchCount (adjustBatchCount s3.batches cur (-1)) newTo 1 ∧
    (applyEditPolicy s3 sid newTo cd rs "TRANSFER" tid cur af tb).fees = s3.fees ∧
    (applyEditPolicy s3 sid newTo cd rs "TRANSFER" tid cur af tb).payments =
      s3.payments := by
  unfold applyEditPolicy
  simp

/-- C7 (amended): a successful TRANSFER switch followed by a successful
edit back to the original source batch with the original (TRANSFER) fee
action restores `Student.currentBatchId`, both batches' rows (hence both
`currentCount`s), and the entire fee and payment tables (hence the open
fee's status and balanceAmount) to their pre-switch values.  NEW_FEE and
SPLIT round trips (edited back with the original fee action) also
restore the student row and every batch row, but the re-application
recomputes the open fee's balance as `max(baseFee − totalPaid, 0)`
instead of restoring it — see the counterexample. -/
theorem roundTripTransferRestores (db : DB) (sid fromId toId cd cd2 : Nat)
    (rs rs2 : String) (student : Student) (toBatch fromBatch : Batch) (fee : Fee)
    (afN afS : Fee)
    (hs : findStudent db sid = some student)
    (hsb : student.currentBatchId = fromId)
    (ht : findBatch db toId = some toBatch)
    (htc : toBatch.currentCount < toBatch.slotLimit)
    (hfb : findBatch db fromId = some fromBatch)
    (hfbc : fromBatch.currentCount ≤ fromBatch.slotLimit)
    (hf : findPendingFee db.fees sid = some fee)
    (hne : fromId ≠ toId)
    (hclk : ∀ h ∈ db.histories, h.studentId = sid → h.createdAt < db.clock)
    (hpaid : sumAmounts (feePayments db.payments fee.id) ≤ toBatch.courseBaseFee)
    (hofN : findOpenFee (reverseSwitch (switchBatch db sid fromId toId cd rs "NEW_FEE").2
      sid (db.nextId + 2) (newFeeHistoryRow db sid fromId toId cd rs fee.id)).fees sid =
      some afN)
    (hofS : findOpenFee (reverseSwitch (switchBatch db sid fromId toId cd rs "SPLIT").2
      sid (db.nextId + 2) (splitHistoryRow db sid fromId toId cd rs fee.id)).fees sid =
      some afS) :
    (switchBatch db sid fromId toId cd rs "TRANSFER").1.success = true ∧
    (editBatchSwitch (switchBatch db sid fromId toId cd rs "TRANSFER").2 sid
      (db.nextId + 1) fromId cd2 rs2 "TRANSFER").1.success = true ∧
    findStudent (editBatchSwitch (switchBatch db sid fromId toId cd rs "TRANSFER").2 sid
      (db.nextId + 1) fromId cd2 rs2 "TRANSFER").2 sid = some student ∧
    (editBatchSwitch (switchBatch db sid fromId toId cd rs "TRANSFER").2 sid
      (db.nextId + 1) fromId cd2 rs2 "TRANSFER").2.batches = db.batches ∧
    (editBatchSwitch (switchBatch db sid fromId toId cd rs "TRANSFER").2 sid
      (db.nextId + 1) fromId cd2 rs2 "TRANSFER").2.fees = db.fees ∧
    (editBatchSwitch (switchBatch db sid fromId toId cd rs "TRANSFER").2 sid
      (db.nextId + 1) fromId cd2 rs2 "TRANSFER").2.payments = db.payments ∧
    (switchBatch db sid fromId toId cd rs "NEW_FEE").1.success = true ∧
    (editBatchSwitch (switchBatch db sid fromId toId cd rs "NEW_FEE").2 sid
      (db.nextId + 2) fromId cd2 rs2 "NEW_FEE").1.success = true ∧
    findStudent (editBatchSwitch (switchBatch db sid fromId toId cd rs "NEW_FEE").2 sid
      (db.nextId + 2) fromId cd2 rs2 "NEW_FEE").2 sid = some student ∧
    (editBatchSwitch (switchBatch db sid fromId toId cd rs "NEW_FEE").2 sid
      (db.nextId + 2) fromId cd2 rs2 "NEW_FEE").2.batches = db.batches ∧
    (switchBatch db sid fromId toId cd rs "SPLIT").1.success = true ∧
    (editBatchSwitch (switchBatch db sid fromId toId cd rs "SPLIT").2 sid
      (db.nextId + 2) fromId cd2 rs2 "SPLIT").1.success = true ∧
    findStudent (editBatchSwitch (switchBatch db sid fromId toId cd rs "SPLIT").2 sid
      (db.nextId + 2) fromId cd2 rs2 "SPLIT").2 sid = some student ∧
    (editBatchSwitch (switchBatch db sid fromId toId cd rs "SPLIT").2 sid
      (db.nextId + 2) fromId cd2 rs2 "SPLIT").2.batches = db.batches := by
  have hstid : (student.id == sid) = true := by simpa using List.find?_some hs
  -- the open fee the edit engine re-resolves
  obtain ⟨af, hof⟩ : ∃ af, findOpenFee db.fees sid = some af := by
    have hf' : db.fees.find?
        (fun f => f.studentId == sid && f.status == FeeStatus.PENDING) = some fee := hf
    have hmem : fee ∈ db.fees := List.mem_of_find?_eq_some hf'
    have hpred := List.find?_some hf'
    apply Option.isSome_iff_exists.mp
    apply List.find?_isSome.mpr
    refine ⟨fee, hmem, ?_⟩
    simp only [Bool.and_eq_true, Bool.or_eq_true] at hpred ⊢
    exact ⟨hpred.1, Or.inr hpred.2⟩
  have hsid2 : student.id = sid := by simpa using hstid
  have hseta2 : ({ id := sid, currentBatchId := fromId } : Student) = student := by
    obtain ⟨a, b⟩ := student
    have h1 : a = sid := by simpa using hstid
    have h2 : b = fromId := hsb
    rw [h1, h2]
  -- the committed state of the TRANSFER switch
  have hA : switchBatch db sid fromId toId cd rs "TRANSFER" =
      ({ status := 200, success := true, message := "Batch switched successfully",
         payload := some
           { batchHistory := some (BHField.student { student with currentBatchId := toId }),
             oldFee := none, newFee := none, transferId := some db.nextId } },
       transferCommittedDB db sid fromId toId cd rs fee.id) := by
    unfold switchBatch
    rw [hs, ht, hf]
    simp [hsb, not_le.mpr htc, transferCommittedDB, transferHistoryRow]
  have hA2 : (switchBatch db sid fromId toId cd rs "TRANSFER").2 =
      transferCommittedDB db sid fromId toId cd rs fee.id := by
    rw [hA]
  -- the edit's precondition facts on the committed state
  have hlat : latestHistoryFor (transferCommittedDB db sid fromId toId cd rs fee.id) sid =
      some (transferHistoryRow db sid fromId toId cd rs fee.id) :=
    latestOf_concat_fresh db.histories sid _ rfl hclk
  have hguard : ((transferHistoryRow db sid fromId toId cd rs fee.id).id
      != db.nextId + 1) = false := by
    simp [transferHistoryRow]
  have hfbD : findBatch (transferCommittedDB db sid fromId toId cd rs fee.id) fromId =
      some { fromBatch with currentCount := fromBatch.currentCount + -1 } :=
    (counts_after_adjust db.batches fromId toId toBatch fromBatch ht hfb hne).2
  have hcap2 : ¬ (fromBatch.slotLimit ≤ fromBatch.currentCount + -1) := by omega
  have hs' : db.students.find? (fun s => s.id == sid) = some student := hs
  have hcsD : findStudent (reverseSwitch (transferCommittedDB db sid fromId toId cd rs fee.id)
      sid (db.nextId + 1) (transferHistoryRow db sid fromId toId cd rs fee.id)) sid =
      some student := by
    show (reverseSwitch (transferCommittedDB db sid fromId toId cd rs fee.id)
      sid (db.nextId + 1) (transferHistoryRow db sid fromId toId cd rs fee.id)).students.find?
        (fun s => s.id == sid) = some student
    rw [reverseSwitch_students]
    show (setStudentBatch (setStudentBatch db.students sid toId) sid fromId).find?
        (fun s => s.id == sid) = some student
    rw [findStudent_set, findStudent_set, hs']
    simp [hsid2, hseta2]
  have hofD : findOpenFee (reverseSwitch (transferCommittedDB db sid fromId toId cd rs fee.id)
      sid (db.nextId + 1) (transferHistoryRow db sid fromId toId cd rs fee.id)).fees sid =
      some af := by
    rw [reverseSwitch_fees_same _ _ _ _ rfl]
    exact hof
  -- the edit engine's committed response and state, componentwise
  have hPresp : (editBatchSwitch (switchBatch db sid fromId toId cd rs "TRANSFER").2 sid
      (db.nextId + 1) fromId cd2 rs2 "TRANSFER").1 =
      { status := 200, success := true,
        message := "Batch switch edited successfully", payload := none } := by
    rw [hA2]
    unfold editBatchSwitch
    simp only [hlat, hguard, Bool.false_eq_true, if_false, hfbD, if_neg hcap2, hcsD, hofD]
  have hPstudents : (editBatchSwitch (switchBatch db sid fromId toId cd rs "TRANSFER").2 sid
      (db.nextId + 1) fromId cd2 rs2 "TRANSFER").2.students =
      setStudentBatch (setStudentBatch (setStudentBatch db.students sid toId) sid fromId)
        sid fromId := by
    rw [hA2]
    unfold editBatchSwitch
    simp only [hlat, hguard, Bool.false_eq_true, if_false, hfbD, if_neg hcap2, hcsD, hofD]
    rw [(applyEditPolicy_transfer_proj _ _ _ _ _ _ _ _ _).1, reverseSwitch_students]
    rfl
  have hPbatches : (editBatchSwitch (switchBatch db sid fromId toId cd rs "TRANSFER").2 sid
      (db.nextId + 1) fromId cd2 rs2 "TRANSFER").2.batches =
      adjustBatchCount (adjustBatchCount (adjustBatchCount (adjustBatchCount
        (adjustBatchCount (adjustBatchCount db.batches fromId (-1)) toId 1) fromId 1)
        toId (-1)) fromId (-1)) fromId 1 := by
    rw [hA2]
    unfold editBatchSwitch
    simp only [hlat, hguard, Bool.false_eq_true, if_false, hfbD, if_neg hcap2, hcsD, hofD]
    rw [(applyEditPolicy_transfer_proj _ _ _ _ _ _ _ _ _).2.1, reverseSwitch_batches]
    rw [hsb]
    rfl
  have hPfees : (editBatchSwitch (switchBatch db sid fromId toId cd rs "TRANSFER").2 sid
      (db.nextId + 1) fromId cd2 rs2 "TRANSFER").2.fees = db.fees := by
    rw [hA2]
    unfold editBatchSwitch
    simp only [hlat, hguard, Bool.false_eq_true, if_false, hfbD, if_neg hcap2, hcsD, hofD]
    rw [(applyEditPolicy_transfer_proj _ _ _ _ _ _ _ _ _).2.2.1,
      reverseSwitch_fees_same _ _ _ _ rfl]
    rfl
  have hPpayments : (editBatchSwitch (switchBatch db sid fromId toId cd rs "TRANSFER").2 sid
      (db.nextId + 1) fromId cd2 rs2 "TRANSFER").2.payments = db.payments := by
    rw [hA2]
    unfold editBatchSwitch
    simp only [hlat, hguard, Bool.false_eq_true, if_false, hfbD, if_neg hcap2, hcsD, hofD]
    rw [(applyEditPolicy_transfer_proj _ _ _ _ _ _ _ _ _).2.2.2,
      reverseSwitch_payments_same _ _ _ _ rfl]
    rfl
  -- NEW_FEE leg: shape of the committed state, then the generic core
  have hNh : (switchBatch db sid fromId toId cd rs "NEW_FEE").2.histories =
      db.histories ++ [newFeeHistoryRow db sid fromId toId cd rs fee.id] := by
    unfold switchBatch
    rw [hs, ht, hf]
    simp [hsb, not_le.mpr htc, newFeeHistoryRow]
  have hNs : (switchBatch db sid fromId toId cd rs "NEW_FEE").2.students =
      setStudentBatch db.students sid toId := by
    unfold switchBatch
    rw [hs, ht, hf]
    simp [hsb, not_le.mpr htc]
  have hNb : (switchBatch db sid fromId toId cd rs "NEW_FEE").2.batches =
      adjustBatchCount (adjustBatchCount db.batches fromId (-1)) toId 1 := by
    unfold switchBatch
    rw [hs, ht, hf]
    simp [hsb, not_le.mpr htc]
  have hNsucc : (switchBatch db sid fromId toId cd rs "NEW_FEE").1.success = true := by
    unfold switchBatch
    rw [hs, ht, hf]
    simp [hsb, not_le.mpr htc]
  have hcoreN := edit_back_restores_core db
    (switchBatch db sid fromId toId cd rs "NEW_FEE").2 sid fromId toId (db.nextId + 2)
    cd2 rs2 "NEW_FEE" (newFeeHistoryRow db sid fromId toId cd rs fee.id)
    student toBatch fromBatch afN hNh hNs hNb rfl rfl rfl rfl rfl
    hs hsb ht hfb hfbc hne hclk hofN
  -- SPLIT leg
  have hnp : ¬ (toBatch.courseBaseFee < sumAmounts (feePayments db.payments fee.id)) :=
    not_lt.mpr hpaid
  have hSh : (switchBatch db sid fromId toId cd rs "SPLIT").2.histories =
      db.histories ++ [splitHistoryRow db sid fromId toId cd rs fee.id] := by
    unfold switchBatch
    rw [hs, ht, hf]
    simp [hsb, not_le.mpr htc, hnp, splitHistoryRow]
  have hSs : (switchBatch db sid fromId toId cd rs "SPLIT").2.students =
      setStudentBatch db.students sid toId := by
    unfold switchBatch
    rw [hs, ht, hf]
    simp [hsb, not_le.mpr htc, hnp]
  have hSb : (switchBatch db sid fromId toId cd rs "SPLIT").2.batches =
      adjustBatchCount (adjustBatchCount db.batches fromId (-1)) toId 1 := by
    unfold switchBatch
    rw [hs, ht, hf]
    simp [hsb, not_le.mpr htc, hnp]
  have hSsucc : (switchBatch db sid fromId toId cd rs "SPLIT").1.success = true := by
    unfold switchBatch
    rw [hs, ht, hf]
    simp [hsb, not_le.mpr htc, hnp]
  have hcoreS := edit_back_restores_core db
    (switchBatch db sid fromId toId cd rs "SPLIT").2 sid fromId toId (db.nextId + 2)
    cd2 rs2 "SPLIT" (splitHistoryRow db sid fromId toId cd rs fee.id)
    student toBatch fromBatch afS hSh hSs hSb rfl rfl rfl rfl rfl
    hs hsb ht hfb hfbc hne hclk hofS
  refine ⟨by rw [hA], by rw [hPresp], ?_, ?_, hPfees, hPpayments,
    hNsucc, hcoreN.1, hcoreN.2.1, hcoreN.2.2,
    hSsucc, hcoreS.1, hcoreS.2.1, hcoreS.2.2⟩
  · show ((editBatchSwitch (switchBatch db sid fromId toId cd rs "TRANSFER").2 sid
        (db.nextId + 1) fromId cd2 rs2 "TRANSFER").2.students).find?
        (fun s => s.id == sid) = some student
    rw [hPstudents]
    rw [findStudent_set, findStudent_set, findStudent_set, hs']
    simp [hsid2, hseta2]
  · rw [hPbatches]
    exact adjust_roundtrip db.batches fromId toId

/-- C7 witness: on `exDB`, switching 10 → 20 with TRANSFER and editing
back to batch 10 with TRANSFER restores the student row, both batch
rows, and the fee and payment tables. -/
theorem roundTripTransferRestores_w :
    (switchBatch exDB 1 10 20 7 "r" "TRANSFER").1.success = true ∧
    (editBatchSwitch (switchBatch exDB 1 10 20 7 "r" "TRANSFER").2 1
      (exDB.nextId + 1) 10 8 "e" "TRANSFER").1.success = true ∧
    findStudent (editBatchSwitch (switchBatch exDB 1 10 20 7 "r" "TRANSFER").2 1
      (exDB.nextId + 1) 10 8 "e" "TRANSFER").2 1 = some exSt ∧
    (editBatchSwitch (switchBatch exDB 1 10 20 7 "r" "TRANSFER").2 1
      (exDB.nextId + 1) 10 8 "e" "TRANSFER").2.batches = exDB.batches ∧
    (editBatchSwitch (switchBatch exDB 1 10 20 7 "r" "TRANSFER").2 1
      (exDB.nextId + 1) 10 8 "e" "TRANSFER").2.fees = exDB.fees ∧
    (editBatchSwitch (switchBatch exDB 1 10 20 7 "r" "TRANSFER").2 1
      (exDB.nextId + 1) 10 8 "e" "TRANSFER").2.payments = exDB.payments ∧
    (switchBatch exDB 1 10 20 7 "r" "NEW_FEE").1.success = true ∧
    (editBatchSwitch (switchBatch exDB 1 10 20 7 "r" "NEW_FEE").2 1
      (exDB.nextId + 2) 10 8 "e" "NEW_FEE").1.success = true ∧
    findStudent (editBatchSwitch (switchBatch exDB 1 10 20 7 "r" "NEW_FEE").2 1
      (exDB.nextId + 2) 10 8 "e" "NEW_FEE").2 1 = some exSt ∧
    (editBatchSwitch (switchBatch exDB 1 10 20 7 "r" "NEW_FEE").2 1
      (exDB.nextId + 2) 10 8 "e" "NEW_FEE").2.batches = exDB.batches ∧
    (switchBatch exDB 1 10 20 7 "r" "SPLIT").1.success = true ∧
    (editBatchSwitch (switchBatch exDB 1 10 20 7 "r" "SPLIT").2 1
      (exDB.nextId + 2) 10 8 "e" "SPLIT").1.success = true ∧
    findStudent (editBatchSwitch (switchBatch exDB 1 10 20 7 "r" "SPLIT").2 1
      (exDB.nextId + 2) 10 8 "e" "SPLIT").2 1 = some exSt ∧
    (editBatchSwitch (switchBatch exDB 1 10 20 7 "r" "SPLIT").2 1
      (exDB.nextId + 2) 10 8 "e" "SPLIT").2.batches = exDB.batches :=
  roundTripTransferRestores exDB 1 10 20 7 8 "r" "e" exSt exB20 exB10 exFee
    exFee { exFee with transferId := some 1000 }
    (by decide) (by decide) (by decide) (by decide) (by decide) (by decide)
    (by decide) (by decide) (by decide) (by decide) (by decide) (by decide)

/-! ### Claim C8 -/

/-- C8: when `batchHistoryId` is not the id of the student's
most-recent-by-creation-time history row (or the student has no history),
`editBatchSwitch` returns the 400 "Only latest switch can be edited"
response and the store is returned unchanged. -/
theorem editRejectsStale (db : DB) (sid bhId newTo cd : Nat) (rs fa : String)
    (hstale : ∀ h, latestHistoryFor db sid = some h → h.id ≠ bhId) :
    editBatchSwitch db sid bhId newTo cd rs fa =
      (mkErr 400 "Only latest switch can be edited", db) := by
  unfold editBatchSwitch
  cases hl : latestHistoryFor db sid with
  | none => rfl
  | some h =>
    have hne := hstale h hl
    simp [bne_iff_ne, hne]

/-- C8 witness: editing `exEditDB`'s switch under a stale id 77 (the
latest history row has id 9) is rejected without mutation. -/
theorem editRejectsStale_w :
    editBatchSwitch exEditDB 1 77 10 8 "e" "TRANSFER" =
      (mkErr 400 "Only latest switch can be edited", exEditDB) :=
  editRejectsStale exEditDB 1 77 10 8 "e" "TRANSFER"
    (by
      intro h hh
      have h9 : latestHistoryFor exEditDB 1 = some exHist9 := by decide
      rw [h9] at hh
      cases hh
      decide)

/-- Every response of the edit engine — success or error — carries a
`null` payload. -/
theorem edit_payload_none (edb : DB) (sid bhId newTo cd : Nat) (rs fa : String) :
    (editBatchSwitch edb sid bhId newTo cd rs fa).1.payload = none := by
  simp only [editBatchSwitch]
  repeat' split
  all_goals rfl

/-! ### Claim C9 -/

/-- C9 counterexample: the successful TRANSFER response's `batchHistory`
payload field holds the updated student row — the destructuring in the
source skips over the created history — and the successful
`editBatchSwitch` response carries a `null` payload, so neither contains
the created BatchHistory record as the claim requires. -/
theorem responsePayload_cex :
    (switchBatch exDB 1 10 20 7 "r" "TRANSFER").1.success = true ∧
    (switchBatch exDB 1 10 20 7 "r" "TRANSFER").1.payload =
      some { batchHistory := some (BHField.student { id := 1, currentBatchId := 20 }),
             oldFee := none, newFee := none, transferId := some 1000 } ∧
    (editBatchSwitch exDB2 1 1002 10 8 "e" "NEW_FEE").1.success = true ∧
    (editBatchSwitch exDB2 1 1002 10 8 "e" "NEW_FEE").1.payload = none := by decide

/-- C9 (amended): successful NEW_FEE and SPLIT responses do carry the
created BatchHistory row and the minted `transferId`; the successful
TRANSFER response carries the `transferId` but its `batchHistory` field
holds the updated student row (the transaction-array destructuring skips
the created history); and every `editBatchSwitch` response carries a
`null` payload. -/
theorem responsePayload (db : DB) (sid fromId toId cd : Nat) (rs : String)
    (student : Student) (toBatch : Batch) (fee : Fee)
    (hs : findStudent db sid = some student)
    (hsb : student.currentBatchId = fromId)
    (ht : findBatch db toId = some toBatch)
    (htc : toBatch.currentCount < toBatch.slotLimit)
    (hf : findPendingFee db.fees sid = some fee)
    (hpaid : sumAmounts (feePayments db.payments fee.id) ≤ toBatch.courseBaseFee)
    (edb : DB) (sid2 bhId newTo2 cd2 : Nat) (rs2 fa2 : String) :
    (switchBatch db sid fromId toId cd rs "TRANSFER").1.payload =
      some { batchHistory := some (BHField.student { student with currentBatchId := toId }),
             oldFee := none, newFee := none, transferId := some db.nextId } ∧
    ((switchBatch db sid fromId toId cd rs "NEW_FEE").1.payload).map Payload.batchHistory =
      some (some (BHField.history
        { id := db.nextId + 2, studentId := sid, fromBatchId := fromId,
          toBatchId := toId, changeDate := cd, reason := rs,
          transferId := db.nextId, feeIdFrom := fee.id, feeIdTo := db.nextId + 1,
          feeManageMode := "NEW_FEE", createdAt := db.clock })) ∧
    ((switchBatch db sid fromId toId cd rs "NEW_FEE").1.payload).map Payload.transferId =
      some (some db.nextId) ∧
    (switchBatch db sid fromId toId cd rs "NEW_FEE").2.histories.getLast? =
      some { id := db.nextId + 2, studentId := sid, fromBatchId := fromId,
             toBatchId := toId, changeDate := cd, reason := rs,
             transferId := db.nextId, feeIdFrom := fee.id, feeIdTo := db.nextId + 1,
             feeManageMode := "NEW_FEE", createdAt := db.clock } ∧
    ((switchBatch db sid fromId toId cd rs "SPLIT").1.payload).map Payload.batchHistory =
      some (some (BHField.history
        { id := db.nextId + 2, studentId := sid, fromBatchId := fromId,
          toBatchId := toId, changeDate := cd, reason := rs,
          transferId := db.nextId, feeIdFrom := fee.id, feeIdTo := db.nextId + 1,
          feeManageMode := "SPLIT", createdAt := db.clock })) ∧
    ((switchBatch db sid fromId toId cd rs "SPLIT").1.payload).map Payload.transferId =
      some (some db.nextId) ∧
    (switchBatch db sid fromId toId cd rs "SPLIT").2.histories.getLast? =
      some { id := db.nextId + 2, studentId := sid, fromBatchId := fromId,
             toBatchId := toId, changeDate := cd, reason := rs,
             transferId := db.nextId, feeIdFrom := fee.id, feeIdTo := db.nextId + 1,
             feeManageMode := "SPLIT", createdAt := db.clock } ∧
    (editBatchSwitch edb sid2 bhId newTo2 cd2 rs2 fa2).1.payload = none := by
  have hnp : ¬ (toBatch.courseBaseFee < sumAmounts (feePayments db.payments fee.id)) :=
    not_lt.mpr hpaid
  refine ⟨?_, ?_, ?_, ?_, ?_, ?_, ?_, ?_⟩
  · unfold switchBatch
    rw [hs, ht, hf]
    simp [hsb, not_le.mpr htc]
  · unfold switchBatch
    rw [hs, ht, hf]
    simp [hsb, not_le.mpr htc]
  · unfold switchBatch
    rw [hs, ht, hf]
    simp [hsb, not_le.mpr htc]
  · unfold switchBatch
    rw [hs, ht, hf]
    simp [hsb, not_le.mpr htc]
  · unfold switchBatch
    rw [hs, ht, hf]
    simp [hsb, not_le.mpr htc, hnp]
  · unfold switchBatch
    rw [hs, ht, hf]
    simp [hsb, not_le.mpr htc, hnp]
  · unfold switchBatch
    rw [hs, ht, hf]
    simp [hsb, not_le.mpr htc, hnp]
  · exact edit_payload_none edb sid2 bhId newTo2 cd2 rs2 fa2

/-- C9 witness: the payload shapes at `exDB` (switch halves) and at
`exDB2` (edit half). -/
theorem responsePayload_w :
    (switchBatch exDB 1 10 20 7 "r" "TRANSFER").1.payload =
      some { batchHistory := some (BHField.student { exSt with currentBatchId := 20 }),
             oldFee := none, newFee := none, transferId := some exDB.nextId } ∧
    ((switchBatch exDB 1 10 20 7 "r" "NEW_FEE").1.payload).map Payload.batchHistory =
      some (some (BHField.history
        { id := exDB.nextId + 2, studentId := 1, fromBatchId := 10,
          toBatchId := 20, changeDate := 7, reason := "r",
          transferId := exDB.nextId, feeIdFrom := exFee.id, feeIdTo := exDB.nextId + 1,
          feeManageMode := "NEW_FEE", createdAt := exDB.clock })) ∧
    ((switchBatch exDB 1 10 20 7 "r" "NEW_FEE").1.payload).map Payload.transferId =
      some (some exDB.nextId) ∧
    (switchBatch exDB 1 10 20 7 "r" "NEW_FEE").2.histories.getLast? =
      some { id := exDB.nextId + 2, studentId := 1, fromBatchId := 10,
             toBatchId := 20, changeDate := 7, reason := "r",
             transferId := exDB.nextId, feeIdFrom := exFee.id, feeIdTo := exDB.nextId + 1,
             feeManageMode := "NEW_FEE", createdAt := exDB.clock } ∧
    ((switchBatch exDB 1 10 20 7 "r" "SPLIT").1.payload).map Payload.batchHistory =
      some (some (BHField.history
        { id := exDB.nextId + 2, studentId := 1, fromBatchId := 10,
          toBatchId := 20, changeDate := 7, reason := "r",
          transferId := exDB.nextId, feeIdFrom := exFee.id, feeIdTo := exDB.nextId + 1,
          feeManageMode := "SPLIT", createdAt := exDB.clock })) ∧
    ((switchBatch exDB 1 10 20 7 "r" "SPLIT").1.payload).map Payload.transferId =
      some (some exDB.nextId) ∧
    (switchBatch exDB 1 10 20 7 "r" "SPLIT").2.histories.getLast? =
      some { id := exDB.nextId + 2, studentId := 1, fromBatchId := 10,
             toBatchId := 20, changeDate := 7, reason := "r",
             transferId := exDB.nextId, feeIdFrom := exFee.id, feeIdTo := exDB.nextId + 1,
             feeManageMode := "SPLIT", createdAt := exDB.clock } ∧
    (editBatchSwitch exDB2 1 1002 10 8 "e" "NEW_FEE").1.payload = none :=
  responsePayload exDB 1 10 20 7 "r" exSt exB20 exFee
    (by decide) (by decide) (by decide) (by decide) (by decide) (by decide)
    exDB2 1 1002 10 8 "e" "NEW_FEE"

/-! ### Claim C10 -/

/-- C10: when the edit's preconditions pass but `newFeeAction` is none of
TRANSFER / NEW_FEE / SPLIT, the transaction still commits with the
success response: the prior switch is reversed (fees and payments end as
the reversal leaves them), the edited history row is deleted and no new
one is created, the student is moved to `newToBatchId`, and the
occupancy counters receive the reversal and re-application writes — yet
no invalid-fee-action error is returned. -/
theorem editInvalidActionCommits (db : DB) (sid bhId newTo cd : Nat) (rs fa : String)
    (latest : BatchHistory) (tb : Batch) (cs : Student) (activeFee : Fee)
    (hl : latestHistoryFor db sid = some latest)
    (hid : latest.id = bhId)
    (ht : findBatch db newTo = some tb)
    (htc : tb.currentCount < tb.slotLimit)
    (hcs : findStudent (reverseSwitch db sid bhId latest) sid = some cs)
    (hof : findOpenFee (reverseSwitch db sid bhId latest).fees sid = some activeFee)
    (hfa1 : fa ≠ "TRANSFER") (hfa2 : fa ≠ "NEW_FEE") (hfa3 : fa ≠ "SPLIT") :
    (editBatchSwitch db sid bhId newTo cd rs fa).1 =
      { status := 200, success := true,
        message := "Batch switch edited successfully", payload := none } ∧
    (editBatchSwitch db sid bhId newTo cd rs fa).2 =
      { reverseSwitch db sid bhId latest with
        students := setStudentBatch (reverseSwitch db sid bhId latest).students sid newTo,
        batches := adjustBatchCount (adjustBatchCount
          (reverseSwitch db sid bhId latest).batches cs.currentBatchId (-1)) newTo 1,
        nextId := db.nextId + 3, clock := db.clock + 1 } ∧
    (editBatchSwitch db sid bhId newTo cd rs fa).2.histories =
      db.histories.filter (fun h => h.id != bhId) ∧
    findStudent (editBatchSwitch db sid bhId newTo cd rs fa).2 sid =
      some { cs with currentBatchId := newTo } := by
  have hcsid : (cs.id == sid) = true := by simpa using List.find?_some hcs
  have hred : editBatchSwitch db sid bhId newTo cd rs fa =
      ({ status := 200, success := true,
         message := "Batch switch edited successfully", payload := none },
       { reverseSwitch db sid bhId latest with
         students := setStudentBatch (reverseSwitch db sid bhId latest).students sid newTo,
         batches := adjustBatchCount (adjustBatchCount
           (reverseSwitch db sid bhId latest).batches cs.currentBatchId (-1)) newTo 1,
         nextId := db.nextId + 3, clock := db.clock + 1 }) := by
    unfold editBatchSwitch
    rw [hl]
    simp only [hid, bne_self_eq_false, Bool.false_eq_true, if_false, ht, hcs, hof,
      if_neg (not_le.mpr htc)]
    unfold applyEditPolicy
    have e1 : (fa == "TRANSFER") = false := beq_eq_false_iff_ne.mpr hfa1
    have e2 : (fa == "NEW_FEE") = false := beq_eq_false_iff_ne.mpr hfa2
    have e3 : (fa == "SPLIT") = false := beq_eq_false_iff_ne.mpr hfa3
    simp [e1, e2, e3]
  refine ⟨by rw [hred], by rw [hred], ?_, ?_⟩
  · rw [hred]
    exact reverseSwitch_histories db sid bhId latest
  · rw [hred]
    have hcs' : (reverseSwitch db sid bhId latest).students.find?
        (fun s => s.id == sid) = some cs := hcs
    show (setStudentBatch (reverseSwitch db sid bhId latest).students sid newTo).find?
        (fun s => s.id == sid) = _
    rw [findStudent_set, hcs']
    simp [hcsid]
    intro h
    exact absurd (by simpa using hcsid) h

/-- C10 witness: editing `exEditDB`'s latest switch with the unknown
action "BOGUS" commits: history 9 is deleted, the student lands in batch
10, and the 200 success response is returned. -/
theorem editInvalidActionCommits_w :
    (editBatchSwitch exEditDB 1 9 10 8 "e" "BOGUS").1 =
      { status := 200, success := true,
        message := "Batch switch edited successfully", payload := none } ∧
    (editBatchSwitch exEditDB 1 9 10 8 "e" "BOGUS").2 =
      { reverseSwitch exEditDB 1 9 exHist9 with
        students := setStudentBatch (reverseSwitch exEditDB 1 9 exHist9).students 1 10,
        batches := adjustBatchCount (adjustBatchCount
          (reverseSwitch exEditDB 1 9 exHist9).batches 10 (-1)) 10 1,
        nextId := exEditDB.nextId + 3, clock := exEditDB.clock + 1 } ∧
    (editBatchSwitch exEditDB 1 9 10 8 "e" "BOGUS").2.histories =
      exEditDB.histories.filter (fun h => h.id != 9) ∧
    findStudent (editBatchSwitch exEditDB 1 9 10 8 "e" "BOGUS").2 1 =
      some { id := 1, currentBatchId := 10 } :=
  editInvalidActionCommits exEditDB 1 9 10 8 "e" "BOGUS" exHist9
    { exB10 with currentCount := 0 } { id := 1, currentBatchId := 10 } exFee600
    (by decide) (by decide) (by decide) (by decide) (by decide) (by decide)
    (by decide) (by decide) (by decide)

end SmkApi
